import Mathlib

/-!
Shallow embedding of the neuromorphicsystems/sgp4 satellite propagator
(model.rs, third_body.rs, propagator.rs, near_earth.rs, deep_space.rs,
lib.rs) together with theorems about epoch initialization, the
Kozai-to-Brouwer conversion, propagation error behaviour, the Kepler
iteration, and the deep-space resonance integrator.

Rust f64 values are modelled as real numbers and f64 operations as the
exact real operations (x / 0 is 0 in Lean where Rust would yield inf or
NaN; none of the statements below depends on that difference).  The f64
truncated remainder (the Rust % operator) and rem_euclid are modelled
explicitly, as is f64::atan2.
-/

noncomputable section

namespace SGP4

open scoped Classical

/-- Truncation toward zero of a real number, as an integer cast back to the reals;
models the integral part used by the f64 remainder. -/
def truncR (x : ℝ) : ℝ := if 0 ≤ x then (⌊x⌋ : ℝ) else (⌈x⌉ : ℝ)

/-- The Rust f64 % operator (truncated remainder). -/
def frem (x y : ℝ) : ℝ := x - y * truncR (x / y)

/-- The Rust f64 rem_euclid for a positive modulus. -/
def fremEuclid (x y : ℝ) : ℝ := x - y * (⌊x / y⌋ : ℝ)

/-- The f64 atan2 function (four-quadrant arctangent). -/
def atan2 (y x : ℝ) : ℝ :=
  if 0 < x then Real.arctan (y / x)
  else if x < 0 then
    (if 0 ≤ y then Real.arctan (y / x) + Real.pi else Real.arctan (y / x) - Real.pi)
  else if 0 < y then Real.pi / 2
  else if y < 0 then -(Real.pi / 2)
  else 0

/-- model.rs: model of the Earth radius and gravitational field. -/
structure Geopotential where
  ae : ℝ
  ke : ℝ
  j2 : ℝ
  j3 : ℝ
  j4 : ℝ

/-- model.rs: the geopotential model recommended by the IAU. -/
def WGS84 : Geopotential :=
  ⟨6378.137, 0.07436685316871385, 0.00108262998905, -0.00000253215306, -0.00000161098761⟩

/-- model.rs: the geopotential model used in the AFSPC implementation. -/
def WGS72 : Geopotential :=
  ⟨6378.135, 0.07436691613317342, 0.001082616, -0.00000253881, -0.00000165597⟩

/-- model.rs: iau_epoch_to_sidereal_time. -/
def iauEpochToSiderealTime (epoch : ℝ) : ℝ :=
  let c2000 := epoch / 100
  fremEuclid
    ((-6.2e-6 * c2000 ^ 3 + 0.093104 * c2000 ^ 2
        + (876600 * 3600 + 8640184.812866) * c2000 + 67310.54841)
      * (Real.pi / 180) / 240)
    (2 * Real.pi)

/-- model.rs: afspc_epoch_to_sidereal_time. -/
def afspcEpochToSiderealTime (epoch : ℝ) : ℝ :=
  let d1970 := (epoch + 30) * 365.25 + 1
  fremEuclid
    (1.7321343856509374 + 1.72027916940703639e-2 * (⌊d1970 + 1e-8⌋ : ℝ)
      + (1.72027916940703639e-2 + 2 * Real.pi) * (d1970 - (⌊d1970 + 1e-8⌋ : ℝ))
      + d1970 ^ 2 * 5.07551419432269442e-15)
    (2 * Real.pi)

/-- propagator.rs: the Brouwer orbital elements. -/
structure Orbit where
  inclination : ℝ
  rightAscension : ℝ
  eccentricity : ℝ
  argumentOfPerigee : ℝ
  meanAnomaly : ℝ
  meanMotion : ℝ

/-- gp.rs: an SGP4 error; it carries only a description string. -/
structure Error where
  message : String
deriving DecidableEq

/-- propagator.rs: predicted position and velocity (TEME frame). -/
structure Prediction where
  position : ℝ × ℝ × ℝ
  velocity : ℝ × ℝ × ℝ

/-- third_body.rs: the twelve k-coefficients and initial third-body mean anomaly. -/
structure Perturbations where
  kx0 : ℝ
  kx1 : ℝ
  kx2 : ℝ
  kx3 : ℝ
  kx4 : ℝ
  kx5 : ℝ
  kx6 : ℝ
  kx7 : ℝ
  kx8 : ℝ
  kx9 : ℝ
  kx10 : ℝ
  kx11 : ℝ
  thirdBodyMeanAnomaly0 : ℝ

/-- third_body.rs: the secular dots contributed by a third body. -/
structure Dots where
  inclination : ℝ
  rightAscension : ℝ
  eccentricity : ℝ
  argumentOfPerigee : ℝ
  meanAnomaly : ℝ

/-- third_body.rs: perturbations_and_dots. -/
def perturbationsAndDots (inclination0 eccentricity0 argumentOfPerigee0 n0
    thirdBodyInclinationSine thirdBodyInclinationCosine
    deltaRightAscensionSine deltaRightAscensionCosine
    thirdBodyEccentricity thirdBodyArgumentOfPerigeeSine thirdBodyArgumentOfPerigeeCosine
    thirdBodyPerturbationCoefficient thirdBodyMeanMotion thirdBodyMeanAnomaly0
    p1 b0 : ℝ) : Perturbations × Dots :=
  let ax1 := thirdBodyArgumentOfPerigeeCosine * deltaRightAscensionCosine
    + thirdBodyArgumentOfPerigeeSine * thirdBodyInclinationCosine * deltaRightAscensionSine
  let ax3 := -thirdBodyArgumentOfPerigeeSine * deltaRightAscensionCosine
    + thirdBodyArgumentOfPerigeeCosine * thirdBodyInclinationCosine * deltaRightAscensionSine
  let ax7 := -thirdBodyArgumentOfPerigeeCosine * deltaRightAscensionSine
    + thirdBodyArgumentOfPerigeeSine * thirdBodyInclinationCosine * deltaRightAscensionCosine
  let ax8 := thirdBodyArgumentOfPerigeeSine * thirdBodyInclinationSine
  let ax9 := thirdBodyArgumentOfPerigeeSine * deltaRightAscensionSine
    + thirdBodyArgumentOfPerigeeCosine * thirdBodyInclinationCosine * deltaRightAscensionCosine
  let ax10 := thirdBodyArgumentOfPerigeeCosine * thirdBodyInclinationSine
  let ax2 := Real.cos inclination0 * ax7 + Real.sin inclination0 * ax8
  let ax4 := Real.cos inclination0 * ax9 + Real.sin inclination0 * ax10
  let ax5 := -Real.sin inclination0 * ax7 + Real.cos inclination0 * ax8
  let ax6 := -Real.sin inclination0 * ax9 + Real.cos inclination0 * ax10
  let xx1 := ax1 * Real.cos argumentOfPerigee0 + ax2 * Real.sin argumentOfPerigee0
  let xx2 := ax3 * Real.cos argumentOfPerigee0 + ax4 * Real.sin argumentOfPerigee0
  let xx3 := -ax1 * Real.sin argumentOfPerigee0 + ax2 * Real.cos argumentOfPerigee0
  let xx4 := -ax3 * Real.sin argumentOfPerigee0 + ax4 * Real.cos argumentOfPerigee0
  let xx5 := ax5 * Real.sin argumentOfPerigee0
  let xx6 := ax6 * Real.sin argumentOfPerigee0
  let xx7 := ax5 * Real.cos argumentOfPerigee0
  let xx8 := ax6 * Real.cos argumentOfPerigee0
  let zx31 := 12 * xx1 ^ 2 - 3 * xx3 ^ 2
  let zx32 := 24 * xx1 * xx2 - 6 * xx3 * xx4
  let zx33 := 12 * xx2 ^ 2 - 3 * xx4 ^ 2
  let zx11 := -6 * ax1 * ax5 + eccentricity0 ^ 2 * (-24 * xx1 * xx7 - 6 * xx3 * xx5)
  let zx13 := -6 * ax3 * ax6 + eccentricity0 ^ 2 * (-24 * xx2 * xx8 - 6 * xx4 * xx6)
  let zx21 := 6 * ax2 * ax5 + eccentricity0 ^ 2 * (24 * xx1 * xx5 - 6 * xx3 * xx7)
  let zx23 := 6 * ax4 * ax6 + eccentricity0 ^ 2 * (24 * xx2 * xx6 - 6 * xx4 * xx8)
  let zx1 := (3 * (ax1 ^ 2 + ax2 ^ 2) + zx31 * eccentricity0 ^ 2) * 2 + p1 * zx31
  let zx3 := (3 * (ax3 ^ 2 + ax4 ^ 2) + zx33 * eccentricity0 ^ 2) * 2 + p1 * zx33
  let px0 := thirdBodyPerturbationCoefficient / n0
  let px1 := -0.5 * px0 / b0
  let px2 := px0 * b0
  let px3 := -15 * eccentricity0 * px2
  let thirdBodyRightAscensionDot :=
    if ¬(5.2359877e-2 ≤ inclination0 ∧ inclination0 ≤ Real.pi - 5.2359877e-2) then
      (0 : ℝ)
    else
      -thirdBodyMeanMotion * px1 * (zx21 + zx23) / Real.sin inclination0
  (⟨2 * px3 * (xx2 * xx3 + xx1 * xx4),
    2 * px3 * (xx2 * xx4 - xx1 * xx3),
    2 * px1
      * (-6 * (ax1 * ax6 + ax3 * ax5)
        + eccentricity0 ^ 2 * (-24 * (xx2 * xx7 + xx1 * xx8) - 6 * (xx3 * xx6 + xx4 * xx5))),
    2 * px1 * (zx13 - zx11),
    -2 * px0 * ((6 * (ax1 * ax3 + ax2 * ax4) + zx32 * eccentricity0 ^ 2) * 2 + p1 * zx32),
    -2 * px0 * (zx3 - zx1),
    -2 * px0 * (-21 - 9 * eccentricity0 ^ 2) * thirdBodyEccentricity,
    2 * px2 * zx32,
    2 * px2 * (zx33 - zx31),
    -18 * px2 * thirdBodyEccentricity,
    -2 * px1
      * (6 * (ax4 * ax5 + ax2 * ax6)
        + eccentricity0 ^ 2 * (24 * (xx2 * xx5 + xx1 * xx6) - 6 * (xx4 * xx7 + xx3 * xx8))),
    -2 * px1 * (zx23 - zx21),
    thirdBodyMeanAnomaly0⟩,
   ⟨px1 * thirdBodyMeanMotion * (zx11 + zx13),
    thirdBodyRightAscensionDot,
    px3 * thirdBodyMeanMotion * (xx1 * xx3 + xx2 * xx4),
    px2 * thirdBodyMeanMotion * (zx31 + zx33 - 6)
      - Real.cos inclination0 * thirdBodyRightAscensionDot,
    -thirdBodyMeanMotion * px0 * (zx1 + zx3 - 14 - 6 * eccentricity0 ^ 2)⟩)

/-- third_body.rs: long_period_periodic_effects; returns (δe, δI, δM, pₓ₄, pₓ₅). -/
def Perturbations.longPeriodPeriodicEffects (self : Perturbations)
    (thirdBodyEccentricity thirdBodyMeanMotion t : ℝ) : ℝ × ℝ × ℝ × ℝ × ℝ :=
  let thirdBodyMeanAnomaly := self.thirdBodyMeanAnomaly0 + thirdBodyMeanMotion * t
  let fx := thirdBodyMeanAnomaly + 2 * thirdBodyEccentricity * Real.sin thirdBodyMeanAnomaly
  let fx2 := 0.5 * Real.sin fx ^ 2 - 0.25
  let fx3 := -0.5 * Real.sin fx * Real.cos fx
  (self.kx0 * fx2 + self.kx1 * fx3,
   self.kx2 * fx2 + self.kx3 * fx3,
   self.kx4 * fx2 + self.kx5 * fx3 + self.kx6 * Real.sin fx,
   self.kx7 * fx2 + self.kx8 * fx3 + self.kx9 * Real.sin fx,
   self.kx10 * fx2 + self.kx11 * fx3)

/-- deep_space.rs: θ̇, the Earth sidereal rotation speed in rad/min. -/
def siderealSpeed : ℝ := 4.37526908801129966e-3

/-- deep_space.rs: the solar eccentricity constant eₛ. -/
def solarEccentricity : ℝ := 0.01675

/-- deep_space.rs: the lunar eccentricity constant eₗ. -/
def lunarEccentricity : ℝ := 0.05490

/-- deep_space.rs: the solar mean motion nₛ in rad/min. -/
def solarMeanMotion : ℝ := 1.19459e-5

/-- deep_space.rs: the lunar mean motion nₗ in rad/min. -/
def lunarMeanMotion : ℝ := 1.5835218e-4

/-- deep_space.rs: the solar perturbation coefficient Cₛ. -/
def solarPerturbationCoefficient : ℝ := 2.9864797e-6

/-- deep_space.rs: the lunar perturbation coefficient Cₗ. -/
def lunarPerturbationCoefficient : ℝ := 4.7968065e-7

/-- deep_space.rs: the integrator step magnitude Δt = 720 min. -/
def deltaTconst : ℝ := 720

/-- deep_space.rs: λ₃₁. -/
def lambda31 : ℝ := 0.13130908

/-- deep_space.rs: λ₂₂. -/
def lambda22 : ℝ := 2.8843198

/-- deep_space.rs: λ₃₃. -/
def lambda33 : ℝ := 0.37448087

/-- deep_space.rs: G₂₂. -/
def g22const : ℝ := 5.7686396

/-- deep_space.rs: G₃₂. -/
def g32const : ℝ := 0.95240898

/-- deep_space.rs: G₄₄. -/
def g44const : ℝ := 1.8014998

/-- deep_space.rs: G₅₂. -/
def g52const : ℝ := 1.0508330

/-- deep_space.rs: G₅₄. -/
def g54const : ℝ := 4.4108898

/-- near_earth.rs / propagator.rs: the optional elliptic drag correction pair. -/
inductive Elliptic
  | no
  | yes (k12 k13 : ℝ)

/-- near_earth.rs: the high-altitude (perigee ≥ 220 km) drag sub-record, called
Full in near_earth.rs (the propagator.rs revision names it HighAltitude and
keeps k11 inside the elliptic record; near_earth.rs, which builds and consumes
the record, keeps k11 here). -/
inductive HighAltitude
  | no
  | yes (c5 d2 d3 d4 eta k7 k8 k9 k10 k11 : ℝ) (elliptic : Elliptic)

/-- propagator.rs: the resonance coefficient bundle. -/
inductive Resonance
  | oneDay (dr1 dr2 dr3 : ℝ)
  | halfDay (d2201 d2211 d3210 d3222 d4410 d4422 d5220 d5232 d5421 d5433 k14 : ℝ)

/-- propagator.rs: whether the deep-space orbit is resonant. -/
inductive Resonant
  | no (a0 : ℝ)
  | yes (lambda0 lambdaDot0 siderealTime0 : ℝ) (resonance : Resonance)

/-- propagator.rs: the near-earth / deep-space method tag with its constants. -/
inductive Method
  | nearEarth (a0 k2 k3 k4 k5 k6 : ℝ) (highAltitude : HighAltitude)
  | deepSpace (eccentricityDot inclinationDot : ℝ)
      (solarPerturbations lunarPerturbations : Perturbations) (resonant : Resonant)

/-- propagator.rs / near_earth.rs: the propagator constants bundle.  The
near_earth.rs revision stores the drag term B* as a field and multiplies it at
use sites; deep_space.rs never sets nor reads it, so the deep-space constructor
below stores 0 there. -/
structure Constants where
  geopotential : Geopotential
  dragTerm : ℝ
  rightAscensionDot : ℝ
  argumentOfPerigeeDot : ℝ
  meanAnomalyDot : ℝ
  c1 : ℝ
  c4 : ℝ
  k0 : ℝ
  k1 : ℝ
  method : Method
  orbit0 : Orbit

/-- deep_space.rs: the state of the deep-space resonance integrator. -/
structure ResonanceState where
  t : ℝ
  meanMotion : ℝ
  lambda : ℝ

/-- deep_space.rs: ResonanceState::new. -/
def ResonanceState.new (meanMotion0 lambda0 : ℝ) : ResonanceState :=
  ⟨0, meanMotion0, lambda0⟩

/-- lib.rs: the mean-motion conversion block inside Orbit::from_kozai_elements
(the value bound to mean_motion there). -/
def brouwerMeanMotion (geopotential : Geopotential)
    (inclination eccentricity kozaiMeanMotion : ℝ) : ℝ :=
  -- a₁ = (kₑ / n₀)²ᐟ³
  let a1 := (geopotential.ke / kozaiMeanMotion) ^ ((2 : ℝ) / 3)
  -- p₀ = ³/₄ J₂ (3 cos²I₀ - 1) / (1 - e₀²)³ᐟ²
  let p0 := 0.75 * geopotential.j2 * (3 * Real.cos inclination ^ 2 - 1)
    / (1 - eccentricity ^ 2) ^ ((3 : ℝ) / 2)
  -- 𝛿₁ = p₀ / a₁²
  let d1 := p0 / a1 ^ 2
  -- 𝛿₀ = p₀ / (a₁ (1 - 𝛿₁² - 𝛿₁ (¹/₃ + ¹³⁴/₈₁ 𝛿₁²)))²
  let d0 := p0 / (a1 * (1 - d1 ^ 2 - d1 * (1 / 3 + 134 * d1 ^ 2 / 81))) ^ 2
  kozaiMeanMotion / (1 + d0)

/-- lib.rs: Orbit::from_kozai_elements, the Kozai-to-Brouwer conversion. -/
def Orbit.fromKozaiElements (geopotential : Geopotential)
    (inclination rightAscension eccentricity argumentOfPerigee meanAnomaly
      kozaiMeanMotion : ℝ) : Except Error Orbit :=
  if kozaiMeanMotion ≤ 0 then
    .error ⟨"the Kozai mean motion must be positive"⟩
  else
    let meanMotion := brouwerMeanMotion geopotential inclination eccentricity
      kozaiMeanMotion
    if meanMotion ≤ 0 then
      .error ⟨"the Brouwer mean motion must be positive"⟩
    else
      .ok ⟨inclination, rightAscension, eccentricity, argumentOfPerigee, meanAnomaly,
        meanMotion⟩

/-- near_earth.rs: constants (near-earth epoch initialization).  The parameter
names are those of near_earth.rs: p0 is cos I₀, p1 is 1 - e₀², p3 the scaled
perigee radius, p6 the ((120 - p₅)/aₑ)⁴ constant, p8 the drag core, p13 the
right ascension dot and p14 the mean anomaly dot of the caller. -/
def nearEarthConstants (geopotential : Geopotential) (dragTerm : ℝ) (orbit0 : Orbit)
    (p0 a0 s xi eta c1 c4 k0 k1 k6 k14 p1 p3 p6 p8 p13 p14 : ℝ) : Constants :=
  { geopotential := geopotential
    dragTerm := dragTerm
    rightAscensionDot := p13
    argumentOfPerigeeDot := k14
    meanAnomalyDot := p14
    c1 := c1
    c4 := c4
    k0 := k0
    k1 := k1
    method := Method.nearEarth a0
      (-0.5 * (geopotential.j3 / geopotential.j2) * Real.sin orbit0.inclination)
      (1 - p0 ^ 2)
      (7 * p0 ^ 2 - 1)
      (if |1 + p0| > 1.5e-12 then
        -0.25 * (geopotential.j3 / geopotential.j2) * Real.sin orbit0.inclination
          * (3 + 5 * p0) / (1 + p0)
      else
        -0.25 * (geopotential.j3 / geopotential.j2) * Real.sin orbit0.inclination
          * (3 + 5 * p0) / 1.5e-12)
      k6
      (if p3 < 220 / geopotential.ae + 1 then
        HighAltitude.no
      else
        let d2 := 4 * a0 * xi * c1 ^ 2
        let p15 := d2 * xi * c1 / 3
        let d3 := (17 * a0 + s) * p15
        let d4 := 0.5 * p15 * a0 * xi * (221 * a0 + 31 * s) * c1
        HighAltitude.yes
          (2 * p8 * a0 * p1
            * (1 + 2.75 * (eta ^ 2 + eta * orbit0.eccentricity)
              + eta * orbit0.eccentricity * eta ^ 2))
          d2 d3 d4 eta
          ((1 + eta * Real.cos orbit0.meanAnomaly) ^ 3)
          (Real.sin orbit0.meanAnomaly)
          (d2 + 2 * c1 ^ 2)
          (0.25 * (3 * d3 + c1 * (12 * d2 + 10 * c1 ^ 2)))
          (0.2 * (3 * d4 + 12 * c1 * d3 + 6 * d2 ^ 2
            + 15 * c1 ^ 2 * (2 * d2 + c1 ^ 2)))
          (if orbit0.eccentricity > 1e-4 then
            Elliptic.yes
              (dragTerm
                * (-2 * p6 * xi * (geopotential.j3 / geopotential.j2)
                  * orbit0.meanMotion * Real.sin orbit0.inclination / orbit0.eccentricity)
                * Real.cos orbit0.argumentOfPerigee)
              (-2 / 3 * p6 * dragTerm / (orbit0.eccentricity * eta))
          else
            Elliptic.no))
    orbit0 := orbit0 }

/-- deep_space.rs: constants (deep-space epoch initialization).  Parameter
names are those of deep_space.rs; the drag term field is set to 0 because the
deep_space.rs Constants literal has no drag_term entry and the deep-space
propagation path never reads it. -/
def deepSpaceConstants (geopotential : Geopotential) (epochToSiderealTime : ℝ → ℝ)
    (epoch : ℝ) (orbit0 : Orbit) (p1 a0 c1 b0 c4 k0 k1 k14 p2 p14 p15 : ℝ) : Constants :=
  -- d₁₉₀₀ = 365.25 (y₂₀₀₀ + 100)
  let d1900 := (epoch + 100) * 365.25
  let solarPd := perturbationsAndDots orbit0.inclination orbit0.eccentricity
    orbit0.argumentOfPerigee orbit0.meanMotion
    0.39785416 0.91744867
    (Real.sin orbit0.rightAscension) (Real.cos orbit0.rightAscension)
    solarEccentricity (-0.98088458) 0.1945905
    solarPerturbationCoefficient solarMeanMotion
    (frem (6.2565837 + 0.017201977 * d1900) (2 * Real.pi))
    p2 b0
  let solarPerturbations := solarPd.1
  let solarDots := solarPd.2
  -- Ωₗₑ = 4.523602 - 9.2422029 × 10⁻⁴ d₁₉₀₀ rem 2π
  let lunarRightAscensionEpsilon := frem (4.5236020 - 9.2422029e-4 * d1900) (2 * Real.pi)
  -- cos Iₗ = 0.91375164 - 0.03568096 cos Ωₗₑ
  let lunarInclinationCosine := 0.91375164 - 0.03568096 * Real.cos lunarRightAscensionEpsilon
  -- sin Iₗ = (1 - cos²Iₗ)¹ᐟ²
  let lunarInclinationSine := Real.sqrt (1 - lunarInclinationCosine ^ 2)
  -- sin Ωₗ = 0.089683511 sin Ωₗₑ / sin Iₗ
  let lunarRightAscensionSine :=
    0.089683511 * Real.sin lunarRightAscensionEpsilon / lunarInclinationSine
  -- cos Ωₗ = (1 - sin²Ωₗ)¹ᐟ²
  let lunarRightAscensionCosine := Real.sqrt (1 - lunarRightAscensionSine ^ 2)
  let lunarArgumentOfPerigee := 5.8351514 + 0.001944368 * d1900
    + atan2 (0.39785416 * Real.sin lunarRightAscensionEpsilon / lunarInclinationSine)
        (lunarRightAscensionCosine * Real.cos lunarRightAscensionEpsilon
          + 0.91744867 * lunarRightAscensionSine * Real.sin lunarRightAscensionEpsilon)
    - lunarRightAscensionEpsilon
  let lunarPd := perturbationsAndDots orbit0.inclination orbit0.eccentricity
    orbit0.argumentOfPerigee orbit0.meanMotion
    lunarInclinationSine lunarInclinationCosine
    (Real.sin orbit0.rightAscension * lunarRightAscensionCosine
      - Real.cos orbit0.rightAscension * lunarRightAscensionSine)
    (lunarRightAscensionCosine * Real.cos orbit0.rightAscension
      + lunarRightAscensionSine * Real.sin orbit0.rightAscension)
    lunarEccentricity
    (Real.sin lunarArgumentOfPerigee) (Real.cos lunarArgumentOfPerigee)
    lunarPerturbationCoefficient lunarMeanMotion
    (frem (-1.1151842 + 0.228027132 * d1900) (2 * Real.pi))
    p2 b0
  let lunarPerturbations := lunarPd.1
  let lunarDots := lunarPd.2
  { geopotential := geopotential
    dragTerm := 0
    rightAscensionDot := p14 + (solarDots.rightAscension + lunarDots.rightAscension)
    argumentOfPerigeeDot := k14
      + (solarDots.argumentOfPerigee + lunarDots.argumentOfPerigee)
    meanAnomalyDot := p15 + (solarDots.meanAnomaly + lunarDots.meanAnomaly)
    c1 := c1
    c4 := c4
    k0 := k0
    k1 := k1
    method := Method.deepSpace
      (solarDots.eccentricity + lunarDots.eccentricity)
      (solarDots.inclination + lunarDots.inclination)
      solarPerturbations
      lunarPerturbations
      (if (orbit0.meanMotion < 0.0052359877 ∧ orbit0.meanMotion > 0.0034906585)
          ∨ (orbit0.meanMotion ≥ 8.26e-3 ∧ orbit0.meanMotion ≤ 9.24e-3
              ∧ orbit0.eccentricity ≥ 0.5) then
        let siderealTime0 := epochToSiderealTime epoch
        if orbit0.meanMotion < 0.0052359877 ∧ orbit0.meanMotion > 0.0034906585 then
          Resonant.yes
            (frem (orbit0.meanAnomaly + orbit0.rightAscension + orbit0.argumentOfPerigee
              - siderealTime0) (2 * Real.pi))
            (p15 + (k14 + p14) - siderealSpeed
              + (solarDots.meanAnomaly + lunarDots.meanAnomaly)
              + (solarDots.argumentOfPerigee + lunarDots.argumentOfPerigee)
              + (solarDots.rightAscension + lunarDots.rightAscension)
              - orbit0.meanMotion)
            siderealTime0
            (let p17 := 3 * (orbit0.meanMotion / a0) ^ 2
             Resonance.oneDay
              (p17
                * (0.9375 * Real.sin orbit0.inclination ^ 2 * (1 + 3 * p1)
                  - 0.75 * (1 + p1))
                * (1 + 2 * orbit0.eccentricity ^ 2) * 2.1460748e-6 / a0)
              (2 * p17 * (0.75 * (1 + p1) ^ 2)
                * (1 + orbit0.eccentricity ^ 2
                    * (-2.5 + 0.8125 * orbit0.eccentricity ^ 2))
                * 1.7891679e-6)
              (3 * p17 * (1.875 * (1 + p1) ^ 3)
                * (1 + orbit0.eccentricity ^ 2
                    * (-6 + 6.60937 * orbit0.eccentricity ^ 2))
                * 2.2123015e-7 / a0))
        else
          Resonant.yes
            (frem (orbit0.meanAnomaly + orbit0.rightAscension + orbit0.rightAscension
              - siderealTime0 - siderealTime0) (2 * Real.pi))
            (p15 + (solarDots.meanAnomaly + lunarDots.meanAnomaly)
              + 2 * (p14 + (solarDots.rightAscension + lunarDots.rightAscension)
                  - siderealSpeed)
              - orbit0.meanMotion)
            siderealTime0
            (let p18 := 3 * orbit0.meanMotion ^ 2 * (1 / a0) ^ 2
             let p19 := p18 * (1 / a0)
             let p20 := p19 * (1 / a0)
             let p21 := p20 * (1 / a0)
             let f220 := 0.75 * (1 + 2 * p1 + p1 ^ 2)
             let e0 := orbit0.eccentricity
             let g211 := if e0 ≤ 0.65 then 3.616 - 13.247 * e0 + 16.29 * e0 ^ 2
               else -72.099 + 331.819 * e0 - 508.738 * e0 ^ 2 + 266.724 * e0 ^ 3
             let g310 := if e0 ≤ 0.65 then
                 -19.302 + 117.39 * e0 - 228.419 * e0 ^ 2 + 156.591 * e0 ^ 3
               else -346.844 + 1582.851 * e0 - 2415.925 * e0 ^ 2 + 1246.113 * e0 ^ 3
             let g322 := if e0 ≤ 0.65 then
                 -18.9068 + 109.7927 * e0 - 214.6334 * e0 ^ 2 + 146.5816 * e0 ^ 3
               else -342.585 + 1554.908 * e0 - 2366.899 * e0 ^ 2 + 1215.972 * e0 ^ 3
             let g410 := if e0 ≤ 0.65 then
                 -41.122 + 242.694 * e0 - 471.094 * e0 ^ 2 + 313.953 * e0 ^ 3
               else -1052.797 + 4758.686 * e0 - 7193.992 * e0 ^ 2 + 3651.957 * e0 ^ 3
             let g422 := if e0 ≤ 0.65 then
                 -146.407 + 841.88 * e0 - 1629.014 * e0 ^ 2 + 1083.435 * e0 ^ 3
               else -3581.69 + 16178.11 * e0 - 24462.77 * e0 ^ 2 + 12422.52 * e0 ^ 3
             let g520 := if e0 ≤ 0.65 then
                 -532.114 + 3017.977 * e0 - 5740.032 * e0 ^ 2 + 3708.276 * e0 ^ 3
               else if e0 < 0.715 then 1464.74 - 4664.75 * e0 + 3763.64 * e0 ^ 2
               else -5149.66 + 29936.92 * e0 - 54087.36 * e0 ^ 2 + 31324.56 * e0 ^ 3
             let g532 := if e0 < 0.7 then
                 -853.666 + 4690.25 * e0 - 8624.77 * e0 ^ 2 + 5341.4 * e0 ^ 3
               else -40023.88 + 170470.89 * e0 - 242699.48 * e0 ^ 2 + 115605.82 * e0 ^ 3
             let g521 := if e0 < 0.7 then
                 -822.71072 + 4568.6173 * e0 - 8491.4146 * e0 ^ 2 + 5337.524 * e0 ^ 3
               else -51752.104 + 218913.95 * e0 - 309468.16 * e0 ^ 2 + 146349.42 * e0 ^ 3
             let g533 := if e0 < 0.7 then
                 -919.2277 + 4988.61 * e0 - 9064.77 * e0 ^ 2 + 5542.21 * e0 ^ 3
               else -37995.78 + 161616.52 * e0 - 229838.2 * e0 ^ 2 + 109377.94 * e0 ^ 3
             Resonance.halfDay
              (p18 * 1.7891679e-6 * f220 * (-0.306 - (e0 - 0.64) * 0.44))
              (p18 * 1.7891679e-6 * (1.5 * Real.sin orbit0.inclination ^ 2) * g211)
              (p19 * 3.7393792e-7
                * (1.875 * Real.sin orbit0.inclination * (1 - 2 * p1 - 3 * p1 ^ 2))
                * g310)
              (p19 * 3.7393792e-7
                * (-1.875 * Real.sin orbit0.inclination * (1 + 2 * p1 - 3 * p1 ^ 2))
                * g322)
              (2 * p20 * 7.3636953e-9
                * (35 * Real.sin orbit0.inclination ^ 2 * f220) * g410)
              (2 * p20 * 7.3636953e-9
                * (39.375 * Real.sin orbit0.inclination ^ 4) * g422)
              (p21 * 1.1428639e-7
                * (9.84375 * Real.sin orbit0.inclination
                  * (Real.sin orbit0.inclination ^ 2 * (1 - 2 * p1 - 5 * p1 ^ 2)
                    + 0.33333333 * (-2 + 4 * p1 + 6 * p1 ^ 2)))
                * g520)
              (p21 * 1.1428639e-7
                * (Real.sin orbit0.inclination
                  * (4.92187512 * Real.sin orbit0.inclination ^ 2
                      * (-2 - 4 * p1 + 10 * p1 ^ 2)
                    + 6.56250012 * (1 + 2 * p1 - 3 * p1 ^ 2)))
                * g532)
              (2 * p21 * 2.1765803e-9
                * (29.53125 * Real.sin orbit0.inclination
                  * (2 - 8 * p1 + p1 ^ 2 * (-12 + 8 * p1 + 10 * p1 ^ 2)))
                * g521)
              (2 * p21 * 2.1765803e-9
                * (29.53125 * Real.sin orbit0.inclination
                  * (-2 - 8 * p1 + p1 ^ 2 * (12 + 8 * p1 - 10 * p1 ^ 2)))
                * g533)
              k14)
      else
        Resonant.no a0)
    orbit0 := orbit0 }

/-- lib.rs: the body of Constants::new after the eccentricity check: the shared
epoch scalars p₁ … k₁ followed by the near-earth / deep-space branch on
n₀" > 2π/225. -/
def Constants.newBody (geopotential : Geopotential) (epochToSiderealTime : ℝ → ℝ)
    (epoch dragTerm : ℝ) (orbit0 : Orbit) : Constants :=
  -- p₁ = cos I₀
  let p1 := Real.cos orbit0.inclination
  -- p₂ = 1 − e₀²
  let p2 := 1 - orbit0.eccentricity ^ 2
  -- k₆ = 3 p₁² - 1
  let k6 := 3 * p1 ^ 2 - 1
  -- a₀" = (kₑ / n₀")²ᐟ³
  let a0 := (geopotential.ke / orbit0.meanMotion) ^ ((2 : ℝ) / 3)
  -- p₃ = a₀" (1 - e₀)
  let p3 := a0 * (1 - orbit0.eccentricity)
  -- p₄ = aₑ (p₃ - 1)
  let p4 := geopotential.ae * (p3 - 1)
  let p5 := if p4 < 98 then 20 else if p4 < 156 then p4 - 78 else (78 : ℝ)
  -- s = p₅ / aₑ + 1
  let s := p5 / geopotential.ae + 1
  -- p₆ = ((120 - p₅) / aₑ)⁴
  let p6 := ((120 - p5) / geopotential.ae) ^ 4
  -- ξ = 1 / (a₀" - s)
  let xi := 1 / (a0 - s)
  -- p₇ = p₆ ξ⁴
  let p7 := p6 * xi ^ 4
  -- η = a₀" e₀ ξ
  let eta := a0 * orbit0.eccentricity * xi
  -- p₈ = |1 - η²|
  let p8 := |1 - eta ^ 2|
  -- p₉ = p₇ / p₈⁷ᐟ²  (the code computes p₇ / p₈^3.5)
  let p9 := p7 / p8 ^ (3.5 : ℝ)
  let c1 := dragTerm
    * (p9 * orbit0.meanMotion
      * (a0 * (1 + 1.5 * eta ^ 2 + orbit0.eccentricity * eta * (4 + eta ^ 2))
        + 0.375 * geopotential.j2 * xi / p8 * k6
          * (8 + 3 * eta ^ 2 * (8 + eta ^ 2))))
  -- p₁₀ = (a₀" p₂)⁻²
  let p10 := 1 / (a0 * p2) ^ 2
  -- β₀ = p₂¹ᐟ²
  let b0 := Real.sqrt p2
  -- p₁₁ = ³/₂ J₂ p₁₀ n₀"
  let p11 := 1.5 * geopotential.j2 * p10 * orbit0.meanMotion
  -- p₁₂ = ¹/₂ p₁₁ J₂ p₁₀
  let p12 := 0.5 * p11 * geopotential.j2 * p10
  -- p₁₃ = - ¹⁵/₃₂ J₄ p₁₀² n₀"
  let p13 := -0.46875 * geopotential.j4 * p10 ^ 2 * orbit0.meanMotion
  -- p₁₄ = - p₁₁ p₁ + (¹/₂ p₁₂ (4 - 19 p₁²) + 2 p₁₃ (3 - 7 p₁²)) p₁
  let p14 := -p11 * p1
    + (0.5 * p12 * (4 - 19 * p1 ^ 2) + 2 * p13 * (3 - 7 * p1 ^ 2)) * p1
  let k14 := -0.5 * p11 * (1 - 5 * p1 ^ 2)
    + 0.0625 * p12 * (7 - 114 * p1 ^ 2 + 395 * p1 ^ 4)
    + p13 * (3 - 36 * p1 ^ 2 + 49 * p1 ^ 4)
  let p15 := orbit0.meanMotion + 0.5 * p11 * b0 * k6
    + 0.0625 * p12 * b0 * (13 - 78 * p1 ^ 2 + 137 * p1 ^ 4)
  let c4 := dragTerm
    * (2 * orbit0.meanMotion * p9 * a0 * p2
      * (eta * (2 + 0.5 * eta ^ 2)
        + orbit0.eccentricity * (0.5 + 2 * eta ^ 2)
        - geopotential.j2 * xi / (a0 * p8)
          * (-3 * k6
              * (1 - 2 * orbit0.eccentricity * eta
                + eta ^ 2 * (1.5 - 0.5 * orbit0.eccentricity * eta))
            + 0.75 * (1 - p1 ^ 2)
              * (2 * eta ^ 2 - orbit0.eccentricity * eta * (1 + eta ^ 2))
              * Real.cos (2 * orbit0.argumentOfPerigee))))
  -- k₀ = - ⁷/₂ p₂ p₁₁ p₁ C₁
  let k0 := 3.5 * p2 * (-p11 * p1) * c1
  -- k₁ = ³/₂ C₁
  let k1 := 1.5 * c1
  if orbit0.meanMotion > 2 * Real.pi / 225 then
    nearEarthConstants geopotential dragTerm orbit0 p1 a0 s xi eta c1 c4 k0 k1 k6 k14
      p2 p3 p7 p9 p14 p15
  else
    deepSpaceConstants geopotential epochToSiderealTime epoch orbit0 p1 a0 c1 b0 c4 k0
      k1 k14 p2 p14 p15

/-- lib.rs: Constants::new (epoch initialization with its eccentricity check). -/
def Constants.new (geopotential : Geopotential) (epochToSiderealTime : ℝ → ℝ)
    (epoch dragTerm : ℝ) (orbit0 : Orbit) : Except Error Constants :=
  if orbit0.eccentricity < 0 ∨ orbit0.eccentricity ≥ 1 then
    .error ⟨"the eccentricity must be in the range [0, 1["⟩
  else
    .ok (Constants.newBody geopotential epochToSiderealTime epoch dragTerm orbit0)

/-- deep_space.rs: the message of the non-monotonic integration panic. -/
def resonanceResetMessage : String :=
  "the resonance integration state must be manually reset if the target times are non-monotonic"

/-- lib.rs: the message of the near-earth state assertion. -/
def nearEarthStateMessage : String := "state must be None with a near-earth propagator"

/-- deep_space.rs: the message of the non-resonant state assertion. -/
def nonResonantStateMessage : String :=
  "state must be None with a non-resonant deep-space propagator"

/-- deep_space.rs: the message of the missing-state panic on the resonant path. -/
def deepSpaceStateMessage : String := "state cannot be None with a deep space propagator"

/-- A propagation outcome error: either a Rust panic (assert or explicit panic)
or an SGP4 error returned to the caller. -/
inductive PErr
  | fault (message : String)
  | gp (error : Error)
deriving DecidableEq

/-- near_earth.rs: the secular part of near_earth_orbital_elements; returns
(ω, M, a, 𝕃, p₂₅) as computed by the match on the high-altitude record. -/
def nearEarthSecular (cs : Constants) (a0 : ℝ) (full : HighAltitude)
    (t p22 : ℝ) : ℝ × ℝ × ℝ × ℝ × ℝ :=
  -- p₂₃ = M₀ + Ṁ t
  let p23 := cs.orbit0.meanAnomaly + cs.meanAnomalyDot * t
  match full with
  | .no =>
    (p22, p23,
     -- a = a₀" (1 - C₁ t)²
     a0 * (1 - cs.c1 * t) ^ 2,
     -- 𝕃 = p₂₃ + n₀" k₁ t²
     p23 + cs.orbit0.meanMotion * cs.k1 * t ^ 2,
     -- p₂₅ = e₀ - B* C₄ t
     cs.orbit0.eccentricity - cs.dragTerm * cs.c4 * t)
  | .yes c5 d2 d3 d4 eta k7 k8 k9 k10 k11 elliptic =>
    let am : ℝ × ℝ :=
      match elliptic with
      | .yes k12 k13 =>
        -- p₂₄ = k₁₃ ((1 + η cos p₂₃)³ - k₇) + k₁₂ t
        let p24 := k13 * ((1 + eta * Real.cos p23) ^ 3 - k7) + k12 * t
        (p22 - p24, p23 + p24)
      | .no => (p22, p23)
    let argumentOfPerigee := am.1
    let meanAnomaly := am.2
    (argumentOfPerigee, meanAnomaly,
     a0 * (1 - cs.c1 * t - d2 * t ^ 2 - d3 * t ^ 3 - d4 * t ^ 4) ^ 2,
     meanAnomaly
       + cs.orbit0.meanMotion * (cs.k1 * t ^ 2 + k9 * t ^ 3 + t ^ 4 * (k10 + t * k11)),
     cs.orbit0.eccentricity
       - (cs.dragTerm * cs.c4 * t + cs.dragTerm * c5 * (Real.sin meanAnomaly - k8)))

/-- near_earth.rs: near_earth_orbital_elements; returns the orbit plus
(a, 𝕃, p₃₀ … p₃₄) on success. -/
def Constants.nearEarthOrbitalElements (cs : Constants) (a0 k2 k3 k4 k5 k6 : ℝ)
    (full : HighAltitude) (t p21 p22 : ℝ) :
    Except Error (Orbit × ℝ × ℝ × ℝ × ℝ × ℝ × ℝ × ℝ) :=
  let sec := nearEarthSecular cs a0 full t p22
  let argumentOfPerigee := sec.1
  let meanAnomaly := sec.2.1
  let a := sec.2.2.1
  let l := sec.2.2.2.1
  let p25 := sec.2.2.2.2
  if p25 ≥ 1 ∨ p25 < -0.001 then
    .error ⟨"diverging eccentricity"⟩
  else
    -- e = max(p₂₅, 10⁻⁶)
    let eccentricity := max p25 1e-6
    .ok (⟨cs.orbit0.inclination, p21, eccentricity, argumentOfPerigee, meanAnomaly,
        -- n = kₑ / a³ᐟ²
        cs.geopotential.ke / a ^ (1.5 : ℝ)⟩,
      a, l, k2, k3, k4, k5, k6)

/-- deep_space.rs: the (ṅᵢ, n̈ᵢ) pair computed at the top of each integrator
iteration from the current state. -/
def resonanceDots (argumentOfPerigee0 lambdaDot0 : ℝ) (resonance : Resonance)
    (s : ResonanceState) : ℝ × ℝ :=
  -- λ̇ᵢ = nᵢ + λ̇₀
  let lambdaDot := s.meanMotion + lambdaDot0
  match resonance with
  | .oneDay dr1 dr2 dr3 =>
    (dr1 * Real.sin (s.lambda - lambda31)
       + dr2 * Real.sin (2 * (s.lambda - lambda22))
       + dr3 * Real.sin (3 * (s.lambda - lambda33)),
     (dr1 * Real.cos (s.lambda - lambda31)
       + 2 * dr2 * Real.cos (2 * (s.lambda - lambda22))
       + 3 * dr3 * Real.cos (3 * (s.lambda - lambda33))) * lambdaDot)
  | .halfDay d2201 d2211 d3210 d3222 d4410 d4422 d5220 d5232 d5421 d5433 k14 =>
    -- ωᵢ = ω₀ + ω̇ tᵢ
    let aopI := argumentOfPerigee0 + k14 * s.t
    (d2201 * Real.sin (2 * aopI + s.lambda - g22const)
       + d2211 * Real.sin (s.lambda - g22const)
       + d3210 * Real.sin (aopI + s.lambda - g32const)
       + d3222 * Real.sin (-aopI + s.lambda - g32const)
       + d4410 * Real.sin (2 * aopI + 2 * s.lambda - g44const)
       + d4422 * Real.sin (2 * s.lambda - g44const)
       + d5220 * Real.sin (aopI + s.lambda - g52const)
       + d5232 * Real.sin (-aopI + s.lambda - g52const)
       + d5421 * Real.sin (aopI + 2 * s.lambda - g54const)
       + d5433 * Real.sin (-aopI + 2 * s.lambda - g54const),
     (d2201 * Real.cos (2 * aopI + s.lambda - g22const)
       + d2211 * Real.cos (s.lambda - g22const)
       + d3210 * Real.cos (aopI + s.lambda - g32const)
       + d3222 * Real.cos (-aopI + s.lambda - g32const)
       + d5220 * Real.cos (aopI + s.lambda - g52const)
       + d5232 * Real.cos (-aopI + s.lambda - g52const)
       + 2 * (d4410 * Real.cos (2 * aopI + 2 * s.lambda - g44const)
         + d4422 * Real.cos (2 * s.lambda - g44const)
         + d5421 * Real.cos (aopI + 2 * s.lambda - g54const)
         + d5433 * Real.cos (-aopI + 2 * s.lambda - g54const))) * lambdaDot)

/-- deep_space.rs: one Δt step of the integrator state. -/
def integrateStep (argumentOfPerigee0 lambdaDot0 : ℝ) (resonance : Resonance)
    (deltaT : ℝ) (s : ResonanceState) : ResonanceState :=
  let lambdaDot := s.meanMotion + lambdaDot0
  let nd := resonanceDots argumentOfPerigee0 lambdaDot0 resonance s
  ⟨s.t + deltaT,
   -- nᵢ₊₁ = nᵢ + ṅᵢ Δt + n̈ᵢ (Δt² / 2)
   s.meanMotion + nd.1 * deltaT + nd.2 * (deltaTconst ^ 2 / 2),
   -- λᵢ₊₁ = λᵢ + λ̇ᵢ Δt + ṅᵢ (Δt² / 2)
   s.lambda + lambdaDot * deltaT + nd.1 * (deltaTconst ^ 2 / 2)⟩

/-- deep_space.rs: the sub-step interpolation (p₂₈, p₂₉) the integrator returns
once one more step would overshoot the target time. -/
def integrateFinish (geopotential : Geopotential) (argumentOfPerigee0 lambdaDot0 : ℝ)
    (resonance : Resonance) (t siderealTime p22 p23 : ℝ) (s : ResonanceState) : ℝ × ℝ :=
  let lambdaDot := s.meanMotion + lambdaDot0
  let nd := resonanceDots argumentOfPerigee0 lambdaDot0 resonance s
  ((geopotential.ke
      / (s.meanMotion + nd.1 * (t - s.t) + nd.2 * (t - s.t) ^ 2 * 0.5)) ^ ((2 : ℝ) / 3),
   match resonance with
   | .oneDay _ _ _ =>
     s.lambda + lambdaDot * (t - s.t) + nd.1 * (t - s.t) ^ 2 * 0.5 - p22 - p23
       + siderealTime
   | .halfDay _ _ _ _ _ _ _ _ _ _ _ =>
     s.lambda + lambdaDot * (t - s.t) + nd.1 * (t - s.t) ^ 2 * 0.5 - 2 * p22
       + 2 * siderealTime)

/-- deep_space.rs: the integrator loop for a positive target time
(Δt = +720, stop as soon as t - 720 < tᵢ). -/
def integrateUp (geopotential : Geopotential) (argumentOfPerigee0 lambdaDot0 : ℝ)
    (resonance : Resonance) (t siderealTime p22 p23 : ℝ) (s : ResonanceState) :
    (ℝ × ℝ) × ResonanceState :=
  if t - deltaTconst < s.t then
    (integrateFinish geopotential argumentOfPerigee0 lambdaDot0 resonance t siderealTime
      p22 p23 s, s)
  else
    integrateUp geopotential argumentOfPerigee0 lambdaDot0 resonance t siderealTime p22 p23
      (integrateStep argumentOfPerigee0 lambdaDot0 resonance deltaTconst s)
termination_by (⌈(t - s.t) / 720⌉).toNat
decreasing_by
  rename_i h
  simp only [integrateStep, deltaTconst] at h ⊢
  have h1 : (0 : ℝ) < (t - s.t) / 720 := by
    apply div_pos _ (by norm_num)
    linarith
  have h2 : (0 : ℤ) < ⌈(t - s.t) / 720⌉ := Int.ceil_pos.mpr h1
  have h3 : (t - (s.t + 720)) / 720 = (t - s.t) / 720 - 1 := by ring
  rw [h3, Int.ceil_sub_one]
  omega

/-- deep_space.rs: the integrator loop for a non-positive target time
(Δt = -720, stop as soon as t + 720 > tᵢ). -/
def integrateDown (geopotential : Geopotential) (argumentOfPerigee0 lambdaDot0 : ℝ)
    (resonance : Resonance) (t siderealTime p22 p23 : ℝ) (s : ResonanceState) :
    (ℝ × ℝ) × ResonanceState :=
  if t + deltaTconst > s.t then
    (integrateFinish geopotential argumentOfPerigee0 lambdaDot0 resonance t siderealTime
      p22 p23 s, s)
  else
    integrateDown geopotential argumentOfPerigee0 lambdaDot0 resonance t siderealTime p22
      p23 (integrateStep argumentOfPerigee0 lambdaDot0 resonance (-deltaTconst) s)
termination_by (⌈(s.t - t) / 720⌉).toNat
decreasing_by
  rename_i h
  simp only [integrateStep, deltaTconst] at h ⊢
  have h1 : (0 : ℝ) < (s.t - t) / 720 := by
    apply div_pos _ (by norm_num)
    linarith
  have h2 : (0 : ℤ) < ⌈(s.t - t) / 720⌉ := Int.ceil_pos.mpr h1
  have h3 : (s.t + -720 - t) / 720 = (s.t - t) / 720 - 1 := by ring
  rw [h3, Int.ceil_sub_one]
  omega

/-- deep_space.rs: ResonanceState::integrate: the monotonicity check followed by
the stepping loop; a fault models the Rust panic. -/
def ResonanceState.integrate (s : ResonanceState) (geopotential : Geopotential)
    (argumentOfPerigee0 lambdaDot0 : ℝ) (resonance : Resonance)
    (siderealTime0 t p22 p23 : ℝ) : Except String ((ℝ × ℝ) × ResonanceState) :=
  if (s.t ≠ 0 ∧ ¬((0 ≤ s.t) ↔ (0 ≤ t))) ∨ |t| < |s.t| then
    .error resonanceResetMessage
  else
    -- θ = θ₀ + θ̇ t rem 2π
    let siderealTime := frem (siderealTime0 + t * 4.37526908801129966e-3) (2 * Real.pi)
    if t > 0 then
      .ok (integrateUp geopotential argumentOfPerigee0 lambdaDot0 resonance t siderealTime
        p22 p23 s)
    else
      .ok (integrateDown geopotential argumentOfPerigee0 lambdaDot0 resonance t
        siderealTime p22 p23 s)

/-- deep_space.rs: the part of deep_space_orbital_elements after (p₂₈, p₂₉) were
obtained: third-body long-period effects, inclination and Lyddane updates, the
eccentricity checks and the output tuple. -/
def Constants.deepSpaceAfter (cs : Constants) (eccentricityDot inclinationDot : ℝ)
    (solarPerturbations lunarPerturbations : Perturbations) (t p22 p23 : ℝ)
    (afspcCompatibilityMode : Bool) (p28 p29 : ℝ) :
    Except Error (Orbit × ℝ × ℝ × ℝ × ℝ × ℝ × ℝ) :=
  let solarEff := solarPerturbations.longPeriodPeriodicEffects solarEccentricity
    solarMeanMotion t
  let lunarEff := lunarPerturbations.longPeriodPeriodicEffects lunarEccentricity
    lunarMeanMotion t
  let solarDeltaEccentricity := solarEff.1
  let solarDeltaInclination := solarEff.2.1
  let solarDeltaMeanMotion := solarEff.2.2.1
  let ps4 := solarEff.2.2.2.1
  let ps5 := solarEff.2.2.2.2
  let lunarDeltaEccentricity := lunarEff.1
  let lunarDeltaInclination := lunarEff.2.1
  let lunarDeltaMeanMotion := lunarEff.2.2.1
  let pl4 := lunarEff.2.2.2.1
  let pl5 := lunarEff.2.2.2.2
  -- I = I₀ + İ t + (δIₛ + δIₗ)
  let inclination := cs.orbit0.inclination + inclinationDot * t
    + (solarDeltaInclination + lunarDeltaInclination)
  let raAop : ℝ × ℝ :=
    if inclination ≥ 0.2 then
      (p22 + (ps5 + pl5) / Real.sin inclination,
       p23 + (ps4 + pl4) - Real.cos inclination * ((ps5 + pl5) / Real.sin inclination))
    else
      let p30 := atan2
        (Real.sin inclination * Real.sin p22
          + ((ps5 + pl5) * Real.cos p22
            + (solarDeltaInclination + lunarDeltaInclination) * Real.cos inclination
              * Real.sin p22))
        (Real.sin inclination * Real.cos p22
          + (-(ps5 + pl5) * Real.sin p22
            + (solarDeltaInclination + lunarDeltaInclination) * Real.cos inclination
              * Real.cos p22))
      let rightAscension :=
        if p30 < frem p22 (2 * Real.pi) - Real.pi then p30 + 2 * Real.pi
        else if p30 > frem p22 (2 * Real.pi) + Real.pi then p30 - 2 * Real.pi
        else p30
      (rightAscension,
       p23 + (ps4 + pl4)
         + Real.cos inclination * (frem p22 (2 * Real.pi) - rightAscension)
         - (solarDeltaInclination + lunarDeltaInclination)
           * (if afspcCompatibilityMode then fremEuclid p22 (2 * Real.pi)
              else frem p22 (2 * Real.pi))
           * Real.sin inclination)
  let rightAscension := raAop.1
  let argumentOfPerigee := raAop.2
  -- p₃₁ = e₀ + ė t - C₄ t
  let p31 := cs.orbit0.eccentricity + eccentricityDot * t - cs.c4 * t
  if ¬(-0.001 ≤ p31 ∧ p31 < 1) then
    .error ⟨"diverging eccentricity"⟩
  else
    -- e = max(p₃₁, 10⁻⁶) + (δeₛ + δeₗ)
    let eccentricity := max p31 1e-6 + (solarDeltaEccentricity + lunarDeltaEccentricity)
    if ¬(0 ≤ eccentricity ∧ eccentricity ≤ 1) then
      .error ⟨"diverging perturbed eccentricity"⟩
    else
      -- a = p₂₈ (1 - C₁ t)²
      let a := p28 * (1 - cs.c1 * t) ^ 2
      .ok (⟨inclination, rightAscension, eccentricity, argumentOfPerigee,
          -- M = p₂₉ + (δMₛ + δMₗ) + n₀" k₁ t²
          p29 + (solarDeltaMeanMotion + lunarDeltaMeanMotion)
            + cs.orbit0.meanMotion * cs.k1 * t ^ 2,
          cs.geopotential.ke / a ^ (1.5 : ℝ)⟩,
        a,
        -0.5 * (cs.geopotential.j3 / cs.geopotential.j2) * Real.sin inclination,
        1 - Real.cos inclination ^ 2,
        7 * Real.cos inclination ^ 2 - 1,
        (if |1 + Real.cos inclination| > 1.5e-12 then
          -0.25 * (cs.geopotential.j3 / cs.geopotential.j2) * Real.sin inclination
            * (3 + 5 * Real.cos inclination) / (1 + Real.cos inclination)
        else
          -0.25 * (cs.geopotential.j3 / cs.geopotential.j2) * Real.sin inclination
            * (3 + 5 * Real.cos inclination) / 1.5e-12),
        3 * Real.cos inclination ^ 2 - 1)

/-- The ? conversion of an SGP4 error into a propagation outcome error. -/
def gpLift (r : Except Error (Orbit × ℝ × ℝ × ℝ × ℝ × ℝ × ℝ)) :
    Except PErr (Orbit × ℝ × ℝ × ℝ × ℝ × ℝ × ℝ) :=
  match r with
  | .error e => .error (.gp e)
  | .ok v => .ok v

/-- deep_space.rs: deep_space_orbital_elements; the state is threaded
explicitly in place of the Rust mutable borrow, and faults model the panics. -/
def Constants.deepSpaceOrbitalElements (cs : Constants)
    (eccentricityDot inclinationDot : ℝ)
    (solarPerturbations lunarPerturbations : Perturbations) (resonant : Resonant)
    (state : Option ResonanceState) (t p22 p23 : ℝ) (afspcCompatibilityMode : Bool) :
    Option ResonanceState × Except PErr (Orbit × ℝ × ℝ × ℝ × ℝ × ℝ × ℝ) :=
  match resonant with
  | .no a0 =>
    match state with
    | some st => (some st, .error (.fault nonResonantStateMessage))
    | none =>
      (none,
       gpLift (cs.deepSpaceAfter eccentricityDot inclinationDot solarPerturbations
         lunarPerturbations t p22 p23 afspcCompatibilityMode a0
         -- p₂₉ = M₀ + Ṁ t
         (cs.orbit0.meanAnomaly + cs.meanAnomalyDot * t)))
  | .yes _ lambdaDot0 siderealTime0 resonance =>
    match state with
    | none => (none, .error (.fault deepSpaceStateMessage))
    | some st =>
      match st.integrate cs.geopotential cs.orbit0.argumentOfPerigee lambdaDot0 resonance
          siderealTime0 t p22 p23 with
      | .error m => (some st, .error (.fault m))
      | .ok pv =>
        (some pv.2,
         gpLift (cs.deepSpaceAfter eccentricityDot inclinationDot solarPerturbations
           lunarPerturbations t p22 p23 afspcCompatibilityMode pv.1.1 pv.1.2))

/-- lib.rs: the Kepler-equation update Δ(E + ω) for the current iterate. -/
def keplerDelta (p38 axn ayn ew : ℝ) : ℝ :=
  (p38 - ayn * Real.cos ew + axn * Real.sin ew - ew)
    / (1 - Real.cos ew * axn - Real.sin ew * ayn)

/-- lib.rs: the clamp of the Kepler update to [-0.95, 0.95]. -/
def clampDelta (delta : ℝ) : ℝ :=
  if delta < -0.95 then -0.95 else if delta > 0.95 then 0.95 else delta

/-- lib.rs: the bounded Kepler iteration (the for loop with an early break once
the update falls below 10⁻¹² in magnitude). -/
def keplerLoop (p38 axn ayn : ℝ) : ℕ → ℝ → ℝ
  | 0, ew => ew
  | n + 1, ew =>
    let delta := keplerDelta p38 axn ayn ew
    if |delta| < 1e-12 then ew
    else keplerLoop p38 axn ayn n (ew + clampDelta delta)

/-- lib.rs: the Kepler solution used by propagate_from_state: exactly ten
iterations of the clamped update, started from p₃₈. -/
def keplerSolve (p38 axn ayn : ℝ) : ℝ := keplerLoop p38 axn ayn 10 p38

/-- lib.rs: the tail of propagate_from_state after the orbital elements stage:
Kepler solution, the semi-latus rectum check, the short-period corrections and
the TEME projection. -/
def Constants.assemble (cs : Constants) (orbit : Orbit)
    (a p32 p33 p34 p35 p36 : ℝ) : Except PErr Prediction :=
  -- p₃₇ = 1 / (a (1 - e²))
  let p37 := 1 / (a * (1 - orbit.eccentricity ^ 2))
  -- aₓₙ = e cos ω
  let axn := orbit.eccentricity * Real.cos orbit.argumentOfPerigee
  -- aᵧₙ = e sin ω + p₃₇ p₃₂
  let ayn := orbit.eccentricity * Real.sin orbit.argumentOfPerigee + p37 * p32
  -- p₃₈ = M + ω + p₃₇ p₃₅ aₓₙ rem 2π
  let p38 := frem (orbit.meanAnomaly + orbit.argumentOfPerigee + p37 * p35 * axn)
    (2 * Real.pi)
  let ew := keplerSolve p38 axn ayn
  -- p₃₉ = aₓₙ² + aᵧₙ²
  let p39 := axn ^ 2 + ayn ^ 2
  -- pₗ = a (1 - p₃₉)
  let pl := a * (1 - p39)
  if pl < 0 then
    .error (.gp ⟨"negative semi-latus rectum"⟩)
  else
    let p40 := axn * Real.sin ew - ayn * Real.cos ew
    let r := a * (1 - (axn * Real.cos ew + ayn * Real.sin ew))
    let rDot := Real.sqrt a * p40 / r
    let b := Real.sqrt (1 - p39)
    let p41 := p40 / (1 + b)
    let p42 := a / r * (Real.sin ew - ayn - axn * p41)
    let p43 := a / r * (Real.cos ew - axn + ayn * p41)
    let u := atan2 p42 p43
    let p44 := 2 * p43 * p42
    let p45 := 1 - 2 * p42 ^ 2
    -- p₄₆ = (¹/₂ J₂ / pₗ) / pₗ
    let p46 := 0.5 * cs.geopotential.j2 / pl / pl
    let rk := r * (1 - 1.5 * p46 * b * p36)
      + 0.5 * (0.5 * cs.geopotential.j2 / pl) * p33 * p45
    let uk := u - 0.25 * p46 * p34 * p44
    let inclinationK := orbit.inclination
      + 1.5 * p46 * Real.cos orbit.inclination * Real.sin orbit.inclination * p45
    let rightAscensionK := orbit.rightAscension
      + 1.5 * p46 * Real.cos orbit.inclination * p44
    let rkDot := rDot
      - orbit.meanMotion * (0.5 * cs.geopotential.j2 / pl) * p33 * p44 / cs.geopotential.ke
    let rfkDot := Real.sqrt pl / r
      + orbit.meanMotion * (0.5 * cs.geopotential.j2 / pl) * (p33 * p45 + 1.5 * p36)
        / cs.geopotential.ke
    let u0 := -Real.sin rightAscensionK * Real.cos inclinationK * Real.sin uk
      + Real.cos rightAscensionK * Real.cos uk
    let u1 := Real.cos rightAscensionK * Real.cos inclinationK * Real.sin uk
      + Real.sin rightAscensionK * Real.cos uk
    let u2 := Real.sin inclinationK * Real.sin uk
    .ok ⟨(rk * u0 * cs.geopotential.ae,
          rk * u1 * cs.geopotential.ae,
          rk * u2 * cs.geopotential.ae),
         ((rkDot * u0 + rfkDot * (-Real.sin rightAscensionK * Real.cos inclinationK
              * Real.cos uk - Real.cos rightAscensionK * Real.sin uk))
            * (cs.geopotential.ae * cs.geopotential.ke / 60),
          (rkDot * u1 + rfkDot * (Real.cos rightAscensionK * Real.cos inclinationK
              * Real.cos uk - Real.sin rightAscensionK * Real.sin uk))
            * (cs.geopotential.ae * cs.geopotential.ke / 60),
          (rkDot * u2 + rfkDot * (Real.sin inclinationK * Real.cos uk))
            * (cs.geopotential.ae * cs.geopotential.ke / 60))⟩

/-- lib.rs: propagate_from_state; the state is threaded explicitly and the
assert on the near-earth path becomes a fault.  This lib.rs revision
destructures the element tuple as (orbit, a, p₃₂ … p₃₆); near_earth.rs returns
the mean longitude 𝕃 as an extra third component, which is dropped here. -/
def Constants.propagateFromState (cs : Constants) (t : ℝ)
    (state : Option ResonanceState) (afspcCompatibilityMode : Bool) :
    Option ResonanceState × Except PErr Prediction :=
  -- p₂₂ = Ω₀ + Ω̇ t + k₀ t²
  let p22 := cs.orbit0.rightAscension + cs.rightAscensionDot * t + cs.k0 * t ^ 2
  -- p₂₃ = ω₀ + ω̇ t
  let p23 := cs.orbit0.argumentOfPerigee + cs.argumentOfPerigeeDot * t
  match cs.method with
  | .nearEarth a0 k2 k3 k4 k5 k6 highAltitude =>
    match state with
    | some st => (some st, .error (.fault nearEarthStateMessage))
    | none =>
      (none,
       match cs.nearEarthOrbitalElements a0 k2 k3 k4 k5 k6 highAltitude t p22 p23 with
       | .error e => .error (.gp e)
       | .ok v =>
         cs.assemble v.1 v.2.1 v.2.2.2.1 v.2.2.2.2.1 v.2.2.2.2.2.1 v.2.2.2.2.2.2.1
           v.2.2.2.2.2.2.2)
  | .deepSpace eccentricityDot inclinationDot solarPerturbations lunarPerturbations
      resonant =>
    let out := cs.deepSpaceOrbitalElements eccentricityDot inclinationDot
      solarPerturbations lunarPerturbations resonant state t p22 p23
      afspcCompatibilityMode
    (out.1,
     match out.2 with
     | .error pe => .error pe
     | .ok v =>
       cs.assemble v.1 v.2.1 v.2.2.1 v.2.2.2.1 v.2.2.2.2.1 v.2.2.2.2.2.1 v.2.2.2.2.2.2)

/-- lib.rs: Constants::initial_state. -/
def Constants.initialState (cs : Constants) : Option ResonanceState :=
  match cs.method with
  | .nearEarth _ _ _ _ _ _ _ => none
  | .deepSpace _ _ _ _ resonant =>
    match resonant with
    | .no _ => none
    | .yes lambda0 _ _ _ => some (ResonanceState.new cs.orbit0.meanMotion lambda0)

/-- lib.rs: Constants::propagate (fresh state, default mode). -/
def Constants.propagate (cs : Constants) (t : ℝ) : Except PErr Prediction :=
  (cs.propagateFromState t cs.initialState false).2

/-- lib.rs: Constants::propagate_afspc_compatibility_mode. -/
def Constants.propagateAfspcCompatibilityMode (cs : Constants) (t : ℝ) :
    Except PErr Prediction :=
  (cs.propagateFromState t cs.initialState true).2

/-- Whether the method tag of a Constants bundle is NearEarth. -/
def Method.isNearEarth : Method → Prop
  | .nearEarth _ _ _ _ _ _ _ => True
  | .deepSpace _ _ _ _ _ => False

/-- Whether the method tag of a Constants bundle is DeepSpace. -/
def Method.isDeepSpace : Method → Prop
  | .nearEarth _ _ _ _ _ _ _ => False
  | .deepSpace _ _ _ _ _ => True

/-- Whether the method tag is DeepSpace with Resonant::Yes. -/
def Method.isDeepSpaceResonant : Method → Prop
  | .deepSpace _ _ _ _ (.yes _ _ _ _) => True
  | _ => False

/-- A geopotential with unit radius and unit kₑ and vanishing harmonics, used
as a concrete evaluation point. -/
def gTrivial : Geopotential := ⟨1, 1, 0, 0, 0⟩

/-- A circular equatorial orbit with unit Brouwer mean motion, used as a
concrete evaluation point. -/
def orbTrivial : Orbit := ⟨0, 0, 0, 0, 0, 1⟩

/-- Claim C2: for every geopotential and every input with positive Kozai mean
motion on which Orbit::from_kozai_elements succeeds, the returned orbit keeps
the input inclination, right ascension, eccentricity, argument of perigee and
mean anomaly, and its mean motion is n₀/(1 + δ₀) with
a₁ = (kₑ/n₀)^(2/3), p₀ = 0.75 J₂ (3 cos²i − 1)/(1 − e²)^(3/2), δ₁ = p₀/a₁² and
δ₀ = p₀/(a₁ (1 − δ₁² − δ₁ (1/3 + 134 δ₁²/81)))², exactly these formulas. -/
theorem fromKozaiElements_exact_conversion (g : Geopotential)
    (inclination rightAscension eccentricity argumentOfPerigee meanAnomaly n : ℝ)
    (hn : 0 < n)
    (h : (Orbit.fromKozaiElements g inclination rightAscension eccentricity
      argumentOfPerigee meanAnomaly n).isOk = true) :
    Orbit.fromKozaiElements g inclination rightAscension eccentricity argumentOfPerigee
        meanAnomaly n =
      .ok ⟨inclination, rightAscension, eccentricity, argumentOfPerigee, meanAnomaly,
        (let a1 := (g.ke / n) ^ ((2 : ℝ) / 3)
         let p0 := 0.75 * g.j2 * (3 * Real.cos inclination ^ 2 - 1)
           / (1 - eccentricity ^ 2) ^ ((3 : ℝ) / 2)
         let d1 := p0 / a1 ^ 2
         let d0 := p0 / (a1 * (1 - d1 ^ 2 - d1 * (1 / 3 + 134 * d1 ^ 2 / 81))) ^ 2
         n / (1 + d0))⟩ := by
  have h1 : ¬(n ≤ 0) := not_le.mpr hn
  simp only [Orbit.fromKozaiElements, if_neg h1] at h ⊢
  split at h
  · simp [Except.isOk, Except.toBool] at h
  · rename_i h2
    rw [if_neg h2]
    simp only [brouwerMeanMotion]

/-- Witness for C2: a concrete successful conversion, with the claim formulas
evaluating to a unit Brouwer mean motion. -/
theorem fromKozaiElements_exact_conversion_witness :
    Orbit.fromKozaiElements gTrivial 0 0 0 0 0 1 = .ok ⟨0, 0, 0, 0, 0, 1⟩ := by
  have h : (Orbit.fromKozaiElements gTrivial 0 0 0 0 0 1).isOk = true := by
    simp only [Orbit.fromKozaiElements, brouwerMeanMotion, gTrivial]
    norm_num [Except.isOk, Except.toBool]
  have h2 := fromKozaiElements_exact_conversion gTrivial 0 0 0 0 0 1 (by norm_num) h
  rw [h2]
  simp only [gTrivial]
  norm_num

/-- Counterexample for C3: from_kozai_elements performs no eccentricity check:
with eccentricity 1 (outside [0, 1)) and positive mean motions it returns Ok,
while the claim requires an InvalidEccentricity failure. -/
theorem fromKozaiElements_accepts_unit_eccentricity :
    Orbit.fromKozaiElements gTrivial 0 0 1 0 0 1 = .ok ⟨0, 0, 1, 0, 0, 1⟩ := by
  simp only [Orbit.fromKozaiElements, brouwerMeanMotion, gTrivial]
  norm_num

/-- Claim C3 (amended): Orbit::from_kozai_elements performs no eccentricity
validation; it fails with the Kozai InvalidMeanMotion message iff n₀ ≤ 0, with
the Brouwer InvalidMeanMotion message iff n₀ > 0 and the converted mean motion
is ≤ 0, and returns Ok in every other case. -/
theorem fromKozaiElements_error_characterization (g : Geopotential)
    (inclination rightAscension eccentricity argumentOfPerigee meanAnomaly n : ℝ) :
    (Orbit.fromKozaiElements g inclination rightAscension eccentricity argumentOfPerigee
        meanAnomaly n = .error ⟨"the Kozai mean motion must be positive"⟩ ↔ n ≤ 0) ∧
    (Orbit.fromKozaiElements g inclination rightAscension eccentricity argumentOfPerigee
        meanAnomaly n = .error ⟨"the Brouwer mean motion must be positive"⟩ ↔
      (¬(n ≤ 0) ∧ brouwerMeanMotion g inclination eccentricity n ≤ 0)) ∧
    ((Orbit.fromKozaiElements g inclination rightAscension eccentricity argumentOfPerigee
        meanAnomaly n).isOk = true ↔
      (¬(n ≤ 0) ∧ ¬(brouwerMeanMotion g inclination eccentricity n ≤ 0))) := by
  by_cases h1 : n ≤ 0
  · simp only [Orbit.fromKozaiElements, if_pos h1]
    refine ⟨by simp [h1], ?_, ?_⟩
    · simp only [Except.error.injEq, Error.mk.injEq]
      constructor
      · intro hs
        exact absurd hs (by decide)
      · intro hc
        exact absurd h1 hc.1
    · simp [Except.isOk, Except.toBool, h1]
  · simp only [Orbit.fromKozaiElements, if_neg h1]
    by_cases h2 : brouwerMeanMotion g inclination eccentricity n ≤ 0
    · simp only [if_pos h2]
      refine ⟨?_, by simp [h1, h2], by simp [Except.isOk, Except.toBool, h2]⟩
      simp only [Except.error.injEq, Error.mk.injEq]
      constructor
      · intro hs
        exact absurd hs (by decide)
      · intro hc
        exact absurd hc h1
    · simp only [if_neg h2]
      exact ⟨by simp [h1], by simp [h2], by simp [Except.isOk, Except.toBool, h1, h2]⟩

/-- Witness for C3: the Kozai mean-motion failure at a concrete non-positive
mean motion. -/
theorem fromKozaiElements_error_characterization_witness :
    Orbit.fromKozaiElements gTrivial 0 0 0 0 0 (-1) =
      .error ⟨"the Kozai mean motion must be positive"⟩ :=
  (fromKozaiElements_error_characterization gTrivial 0 0 0 0 0 (-1)).1.mpr (by norm_num)

/-- Claim C6: ResonanceState::integrate fails loudly exactly when the
monotonicity contract is violated: when tᵢ is nonzero and the target time has
the opposite sign, or when the target magnitude is below the state magnitude;
calls with matching sign and magnitude not less than the state magnitude never
fail. -/
theorem integrate_panics_iff_nonmonotonic (s : ResonanceState) (g : Geopotential)
    (argumentOfPerigee0 lambdaDot0 : ℝ) (resonance : Resonance)
    (siderealTime0 t p22 p23 : ℝ) :
    (s.integrate g argumentOfPerigee0 lambdaDot0 resonance siderealTime0 t p22 p23 =
        .error resonanceResetMessage ↔
      ((s.t ≠ 0 ∧ ¬((0 ≤ s.t) ↔ (0 ≤ t))) ∨ |t| < |s.t|)) ∧
    (¬((s.t ≠ 0 ∧ ¬((0 ≤ s.t) ↔ (0 ≤ t))) ∨ |t| < |s.t|) →
      (s.integrate g argumentOfPerigee0 lambdaDot0 resonance siderealTime0 t p22
        p23).isOk = true) := by
  by_cases hc : (s.t ≠ 0 ∧ ¬((0 ≤ s.t) ↔ (0 ≤ t))) ∨ |t| < |s.t|
  · simp only [ResonanceState.integrate, if_pos hc]
    exact ⟨by simp [hc], fun hn => absurd hc hn⟩
  · simp only [ResonanceState.integrate, if_neg hc]
    constructor
    · constructor
      · intro he
        split at he <;> simp at he
      · intro hcc
        exact absurd hcc hc
    · intro _
      split <;> simp [Except.isOk, Except.toBool]

/-- Witness for C6: a concrete in-contract call (fresh state, positive target)
does not fail. -/
theorem integrate_panics_iff_nonmonotonic_witness :
    (ResonanceState.integrate ⟨0, 1, 0⟩ gTrivial 0 0 (Resonance.oneDay 0 0 0) 0 5 0
      0).isOk = true := by
  apply (integrate_panics_iff_nonmonotonic ⟨0, 1, 0⟩ gTrivial 0 0 (Resonance.oneDay 0 0 0)
    0 5 0 0).2
  norm_num

/-- The TEME assembly stage can only fail with the negative semi-latus rectum
error. -/
theorem assemble_errors (cs : Constants) (orbit : Orbit) (a p32 p33 p34 p35 p36 : ℝ)
    (err : PErr) (h : cs.assemble orbit a p32 p33 p34 p35 p36 = .error err) :
    err = .gp ⟨"negative semi-latus rectum"⟩ := by
  simp only [Constants.assemble] at h
  split at h
  · injection h with h2
    exact h2.symm
  · exact Except.noConfusion h

/-- The post-integrator deep-space stage can only fail with one of the two
diverging eccentricity errors. -/
theorem deepSpaceAfter_errors (cs : Constants) (eccentricityDot inclinationDot : ℝ)
    (solarPerturbations lunarPerturbations : Perturbations) (t p22 p23 : ℝ)
    (mode : Bool) (p28 p29 : ℝ) (err : Error)
    (h : cs.deepSpaceAfter eccentricityDot inclinationDot solarPerturbations
      lunarPerturbations t p22 p23 mode p28 p29 = .error err) :
    err = ⟨"diverging eccentricity"⟩ ∨ err = ⟨"diverging perturbed eccentricity"⟩ := by
  simp only [Constants.deepSpaceAfter] at h
  split at h
  · injection h with h2
    exact Or.inl h2.symm
  · split at h
    · injection h with h2
      exact Or.inr h2.symm
    · exact Except.noConfusion h

/-- The integrator can only fail with the non-monotonic reset message. -/
theorem integrate_errors (s : ResonanceState) (g : Geopotential)
    (argumentOfPerigee0 lambdaDot0 : ℝ) (resonance : Resonance)
    (siderealTime0 t p22 p23 : ℝ) (m : String)
    (h : s.integrate g argumentOfPerigee0 lambdaDot0 resonance siderealTime0 t p22 p23 =
      .error m) : m = resonanceResetMessage := by
  simp only [ResonanceState.integrate] at h
  split at h
  · injection h with h2
    exact h2.symm
  · split at h <;> exact Except.noConfusion h

/-- The near-earth element stage can only fail with the diverging eccentricity
error. -/
theorem nearEarthOrbitalElements_errors (cs : Constants) (a0 k2 k3 k4 k5 k6 : ℝ)
    (full : HighAltitude) (t p21 p22 : ℝ) (err : Error)
    (h : cs.nearEarthOrbitalElements a0 k2 k3 k4 k5 k6 full t p21 p22 = .error err) :
    err = ⟨"diverging eccentricity"⟩ := by
  simp only [Constants.nearEarthOrbitalElements] at h
  split at h
  · injection h with h2
    exact h2.symm
  · exact Except.noConfusion h

/-- Characterization of errors of the ? conversion. -/
theorem gpLift_error_iff (r : Except Error (Orbit × ℝ × ℝ × ℝ × ℝ × ℝ × ℝ))
    (err : PErr) : gpLift r = .error err ↔ ∃ e, err = .gp e ∧ r = .error e := by
  cases r with
  | error e =>
    simp only [gpLift, Except.error.injEq]
    constructor
    · intro h
      exact ⟨e, h.symm, rfl⟩
    · rintro ⟨e2, h1, h2⟩
      rw [h1, h2]
  | ok v =>
    simp [gpLift]

/-- The deep-space element stage can only fail with a state fault, the
integrator reset fault, or one of the diverging eccentricity errors. -/
theorem deepSpaceOrbitalElements_errors (cs : Constants)
    (eccentricityDot inclinationDot : ℝ)
    (solarPerturbations lunarPerturbations : Perturbations) (resonant : Resonant)
    (state : Option ResonanceState) (t p22 p23 : ℝ) (mode : Bool) (err : PErr)
    (h : (cs.deepSpaceOrbitalElements eccentricityDot inclinationDot solarPerturbations
      lunarPerturbations resonant state t p22 p23 mode).2 = .error err) :
    err = .fault nonResonantStateMessage ∨ err = .fault deepSpaceStateMessage ∨
    err = .fault resonanceResetMessage ∨ err = .gp ⟨"diverging eccentricity"⟩ ∨
    err = .gp ⟨"diverging perturbed eccentricity"⟩ := by
  simp only [Constants.deepSpaceOrbitalElements] at h
  cases resonant with
  | no a0 =>
    cases state with
    | some st =>
      simp only at h
      injection h with h2
      exact Or.inl h2.symm
    | none =>
      simp only at h
      obtain ⟨e, herr, hda⟩ := (gpLift_error_iff _ _).mp h
      rcases deepSpaceAfter_errors _ _ _ _ _ _ _ _ _ _ _ _ hda with h3 | h3 <;>
        subst h3 <;> simp [herr]
  | yes lambda0 lambdaDot0 siderealTime0 resonance =>
    cases state with
    | none =>
      simp only at h
      injection h with h2
      exact Or.inr (Or.inl h2.symm)
    | some st =>
      simp only at h
      split at h
      · rename_i m heq
        injection h with h2
        have h3 := integrate_errors _ _ _ _ _ _ _ _ _ _ heq
        subst h3
        simp [← h2]
      · rename_i pv heq
        simp only at h
        obtain ⟨e, herr, hda⟩ := (gpLift_error_iff _ _).mp h
        rcases deepSpaceAfter_errors _ _ _ _ _ _ _ _ _ _ _ _ hda with h3 | h3 <;>
          subst h3 <;> simp [herr]

/-- Every error the propagation pipeline can report: the three state faults,
the integrator reset fault, and the three SGP4 numeric errors. -/
theorem propagateFromState_errors (cs : Constants) (t : ℝ)
    (st : Option ResonanceState) (mode : Bool) (err : PErr)
    (h : (cs.propagateFromState t st mode).2 = .error err) :
    err = .fault nearEarthStateMessage ∨ err = .fault nonResonantStateMessage ∨
    err = .fault deepSpaceStateMessage ∨ err = .fault resonanceResetMessage ∨
    err = .gp ⟨"diverging eccentricity"⟩ ∨ err = .gp ⟨"diverging perturbed eccentricity"⟩ ∨
    err = .gp ⟨"negative semi-latus rectum"⟩ := by
  simp only [Constants.propagateFromState] at h
  cases hm : cs.method with
  | nearEarth a0 k2 k3 k4 k5 k6 highAltitude =>
    rw [hm] at h
    cases st with
    | some s =>
      simp only at h
      injection h with h2
      exact Or.inl h2.symm
    | none =>
      simp only at h
      split at h
      · rename_i e heq
        injection h with h2
        have h3 := nearEarthOrbitalElements_errors _ _ _ _ _ _ _ _ _ _ _ _ heq
        subst h3
        simp [← h2]
      · have h3 := assemble_errors _ _ _ _ _ _ _ _ _ h
        simp [h3]
  | deepSpace eccentricityDot inclinationDot solarPerturbations lunarPerturbations
      resonant =>
    rw [hm] at h
    simp only at h
    split at h
    · rename_i pe heq
      injection h with h2
      subst h2
      rcases deepSpaceOrbitalElements_errors _ _ _ _ _ _ _ _ _ _ _ _ heq with
        h3 | h3 | h3 | h3 | h3 <;> simp [h3]
    · have h3 := assemble_errors _ _ _ _ _ _ _ _ _ h
      simp [h3]

/-- Claim C5: the Kepler-like iteration inside propagate_from_state runs a
fixed budget of ten iterations started from p₃₈, each applied update is the
clamp of Δ to [-0.95, 0.95], the loop returns its iterate unchanged as soon as
the update magnitude falls below 10⁻¹², and no non-convergence error exists:
every error the propagation can report is a state fault or one of the three
numeric range errors, none of which concerns the Kepler stage. -/
theorem kepler_iteration_bounded_and_silent :
    (∀ delta : ℝ, -0.95 ≤ clampDelta delta ∧ clampDelta delta ≤ 0.95) ∧
    (∀ p38 axn ayn ew : ℝ, |keplerDelta p38 axn ayn ew| < 1e-12 →
      ∀ n : ℕ, keplerLoop p38 axn ayn (n + 1) ew = ew) ∧
    (∀ p38 axn ayn : ℝ, keplerSolve p38 axn ayn = keplerLoop p38 axn ayn 10 p38) ∧
    (∀ (cs : Constants) (t : ℝ) (st : Option ResonanceState) (mode : Bool) (err : PErr),
      (cs.propagateFromState t st mode).2 = .error err →
      err = .fault nearEarthStateMessage ∨ err = .fault nonResonantStateMessage ∨
      err = .fault deepSpaceStateMessage ∨ err = .fault resonanceResetMessage ∨
      err = .gp ⟨"diverging eccentricity"⟩ ∨
      err = .gp ⟨"diverging perturbed eccentricity"⟩ ∨
      err = .gp ⟨"negative semi-latus rectum"⟩) := by
  refine ⟨?_, ?_, fun _ _ _ => rfl, propagateFromState_errors⟩
  · intro delta
    unfold clampDelta
    split
    · norm_num
    · split
      · norm_num
      · rename_i h1 h2
        exact ⟨not_lt.mp h1, not_lt.mp h2⟩
  · intro p38 axn ayn ew h n
    simp only [keplerLoop]
    rw [if_pos h]

/-- Witness for C5: at the origin the very first update is below the threshold
and the loop returns its starting iterate. -/
theorem kepler_iteration_bounded_and_silent_witness : keplerLoop 0 0 0 1 0 = 0 := by
  apply kepler_iteration_bounded_and_silent.2.1 0 0 0 0
  simp only [keplerDelta]
  norm_num

/-- Claim C1: for every geopotential, sidereal-time function, epoch, drag term
and Brouwer orbit, Constants::new returns an error iff the eccentricity is
outside [0, 1); when it succeeds the returned Constants use the NearEarth
method iff the Brouwer mean motion exceeds 2π/225 rad/min, and the DeepSpace
method otherwise. -/
theorem constants_new_error_iff_and_method_branch (g : Geopotential) (f : ℝ → ℝ)
    (epoch dragTerm : ℝ) (o : Orbit) :
    ((∃ err, Constants.new g f epoch dragTerm o = .error err) ↔
      (o.eccentricity < 0 ∨ o.eccentricity ≥ 1)) ∧
    (∀ cs, Constants.new g f epoch dragTerm o = .ok cs →
      ((cs.method.isNearEarth ↔ o.meanMotion > 2 * Real.pi / 225) ∧
       (cs.method.isDeepSpace ↔ ¬(o.meanMotion > 2 * Real.pi / 225)))) := by
  by_cases hc : o.eccentricity < 0 ∨ o.eccentricity ≥ 1
  · simp only [Constants.new, if_pos hc]
    refine ⟨⟨fun _ => hc, fun _ => ⟨_, rfl⟩⟩, ?_⟩
    intro cs hcs
    exact Except.noConfusion hcs
  · simp only [Constants.new, if_neg hc]
    refine ⟨⟨fun hex => absurd (hex.choose_spec) (by simp), fun hcc => absurd hcc hc⟩, ?_⟩
    intro cs hcs
    injection hcs with h2
    subst h2
    by_cases hb : o.meanMotion > 2 * Real.pi / 225
    · have hmethod : (Constants.newBody g f epoch dragTerm o).method.isNearEarth ∧
          ¬(Constants.newBody g f epoch dragTerm o).method.isDeepSpace := by
        simp [Constants.newBody, hb, nearEarthConstants, Method.isNearEarth,
          Method.isDeepSpace]
      exact ⟨⟨fun _ => hb, fun _ => hmethod.1⟩,
        ⟨fun hd => absurd hd hmethod.2, fun hn => absurd hb hn⟩⟩
    · have hmethod : (Constants.newBody g f epoch dragTerm o).method.isDeepSpace ∧
          ¬(Constants.newBody g f epoch dragTerm o).method.isNearEarth := by
        simp [Constants.newBody, hb, deepSpaceConstants, Method.isNearEarth,
          Method.isDeepSpace]
      exact ⟨⟨fun hne => absurd hne hmethod.2, fun hgt => absurd hgt hb⟩,
        ⟨fun _ => hb, fun _ => hmethod.1⟩⟩

/-- Witness for C1: a concrete successful build whose orbit has unit Brouwer
mean motion (period below 225 min), landing in the NearEarth method. -/
theorem constants_new_error_iff_and_method_branch_witness :
    Method.isNearEarth (Constants.newBody gTrivial (fun x => x) 0 0 orbTrivial).method := by
  have hok : Constants.new gTrivial (fun x => x) 0 0 orbTrivial =
      .ok (Constants.newBody gTrivial (fun x => x) 0 0 orbTrivial) := by
    simp only [Constants.new, orbTrivial]
    norm_num
  have h := ((constants_new_error_iff_and_method_branch gTrivial (fun x => x) 0 0
    orbTrivial).2 _ hok).1
  apply h.mpr
  simp only [orbTrivial, gt_iff_lt]
  rw [div_lt_one (by norm_num : (0 : ℝ) < 225)]
  linarith [Real.pi_lt_d2]

/-- Integrating from a freshly created state (whose integrator time is zero)
never trips the monotonicity check. -/
theorem integrate_new_ok (n0 l0 : ℝ) (g : Geopotential) (aop0 ld0 : ℝ)
    (res : Resonance) (θ0 t p22 p23 : ℝ) :
    ∃ v, (ResonanceState.new n0 l0).integrate g aop0 ld0 res θ0 t p22 p23 = .ok v := by
  simp only [ResonanceState.integrate, ResonanceState.new]
  rw [if_neg (by norm_num)]
  split
  · exact ⟨_, rfl⟩
  · exact ⟨_, rfl⟩

/-- Claim C10: initial_state() returns Some exactly when the method is
deep-space resonant, and the high-level propagation entry (propagate_from_state
fed with initial_state, in either compatibility mode) can never end in one of
the internal state-mismatch or integrator panics. -/
theorem propagate_with_initial_state_never_faults (cs : Constants) :
    ((cs.initialState).isSome = true ↔ cs.method.isDeepSpaceResonant) ∧
    (∀ (t : ℝ) (mode : Bool) (msg : String),
      (cs.propagateFromState t cs.initialState mode).2 ≠ .error (.fault msg)) := by
  constructor
  · cases hm : cs.method with
    | nearEarth a0 k2 k3 k4 k5 k6 highAltitude =>
      simp [Constants.initialState, hm, Method.isDeepSpaceResonant]
    | deepSpace ed id sp lp res =>
      cases res <;>
        simp [Constants.initialState, hm, Method.isDeepSpaceResonant]
  · intro t mode msg h
    cases hm : cs.method with
    | nearEarth a0 k2 k3 k4 k5 k6 highAltitude =>
      have hio : cs.initialState = none := by
        simp [Constants.initialState, hm]
      simp only [Constants.propagateFromState, hm, hio] at h
      split at h
      · rename_i e heq
        injection h with h2
        exact PErr.noConfusion h2
      · exact PErr.noConfusion (assemble_errors _ _ _ _ _ _ _ _ _ h)
    | deepSpace ed id sp lp res =>
      cases res with
      | no a0 =>
        have hio : cs.initialState = none := by
          simp [Constants.initialState, hm]
        simp only [Constants.propagateFromState, hm, hio,
          Constants.deepSpaceOrbitalElements] at h
        split at h
        · rename_i pe heq
          injection h with h2
          obtain ⟨e, herr, _⟩ := (gpLift_error_iff _ _).mp heq
          rw [herr] at h2
          exact PErr.noConfusion h2
        · exact PErr.noConfusion (assemble_errors _ _ _ _ _ _ _ _ _ h)
      | yes lambda0 ld0 st0 resonance =>
        have hio : cs.initialState =
            some (ResonanceState.new cs.orbit0.meanMotion lambda0) := by
          simp [Constants.initialState, hm]
        obtain ⟨v, hv⟩ := integrate_new_ok cs.orbit0.meanMotion lambda0 cs.geopotential
          cs.orbit0.argumentOfPerigee ld0 resonance st0 t
          (cs.orbit0.rightAscension + cs.rightAscensionDot * t + cs.k0 * t ^ 2)
          (cs.orbit0.argumentOfPerigee + cs.argumentOfPerigeeDot * t)
        simp only [Constants.propagateFromState, hm, hio,
          Constants.deepSpaceOrbitalElements, hv] at h
        split at h
        · rename_i pe heq
          injection h with h2
          obtain ⟨e, herr, _⟩ := (gpLift_error_iff _ _).mp heq
          rw [herr] at h2
          exact PErr.noConfusion h2
        · exact PErr.noConfusion (assemble_errors _ _ _ _ _ _ _ _ _ h)

/-- A concrete near-earth constants bundle used as an evaluation point. -/
def csNE : Constants :=
  ⟨gTrivial, 0, 0, 0, 0, 0, 0, 0, 0, Method.nearEarth 1 0 0 0 0 0 HighAltitude.no,
    orbTrivial⟩

/-- Witness for C10: the concrete near-earth propagation does not end in the
near-earth state fault. -/
theorem propagate_with_initial_state_never_faults_witness :
    (csNE.propagateFromState 0 csNE.initialState false).2 ≠
      .error (.fault nearEarthStateMessage) :=
  (propagate_with_initial_state_never_faults csNE).2 0 false nearEarthStateMessage

/-- The deep-space element stage proceeds past its state dispatch (no assert
or panic fires) for the given resonant tag, state and target time. -/
def dsoProceeds (resonant : Resonant) (state : Option ResonanceState) (t : ℝ) : Prop :=
  match resonant, state with
  | .no _, none => True
  | .no _, some _ => False
  | .yes _ _ _ _, none => False
  | .yes _ _ _ _, some s => ¬((s.t ≠ 0 ∧ ¬((0 ≤ s.t) ↔ (0 ≤ t))) ∨ |t| < |s.t|)

/-- The direction dispatch and loop run of the integrator, after the
monotonicity check has passed. -/
def integrateRun (g : Geopotential) (aop0 ld0 : ℝ) (res : Resonance)
    (θ0 t p22 p23 : ℝ) (s : ResonanceState) : (ℝ × ℝ) × ResonanceState :=
  if t > 0 then
    integrateUp g aop0 ld0 res t
      (frem (θ0 + t * 4.37526908801129966e-3) (2 * Real.pi)) p22 p23 s
  else
    integrateDown g aop0 ld0 res t
      (frem (θ0 + t * 4.37526908801129966e-3) (2 * Real.pi)) p22 p23 s

/-- When the monotonicity check passes, the integrator returns the loop result
for the matching direction. -/
theorem integrate_ok_of_not_panic (s : ResonanceState) (g : Geopotential)
    (aop0 ld0 : ℝ) (res : Resonance) (θ0 t p22 p23 : ℝ)
    (hp : ¬((s.t ≠ 0 ∧ ¬((0 ≤ s.t) ↔ (0 ≤ t))) ∨ |t| < |s.t|)) :
    s.integrate g aop0 ld0 res θ0 t p22 p23 =
      .ok (integrateRun g aop0 ld0 res θ0 t p22 p23 s) := by
  simp only [ResonanceState.integrate, if_neg hp, integrateRun]
  by_cases ht : t > 0 <;> simp [ht]

/-- The two eccentricity-range errors of the post-integrator deep-space stage,
characterized exactly: diverging iff the pre-perturbation eccentricity
p₃₁ = e₀ + ė t − C₄ t leaves [-0.001, 1), diverging perturbed iff p₃₁ is in
range but the clamped and third-body-corrected eccentricity leaves [0, 1]. -/
theorem deepSpaceAfter_error_iff (cs : Constants) (ed idot : ℝ)
    (sp lp : Perturbations) (t p22 p23 : ℝ) (mode : Bool) (p28 p29 : ℝ) :
    (cs.deepSpaceAfter ed idot sp lp t p22 p23 mode p28 p29 =
        .error ⟨"diverging eccentricity"⟩ ↔
      ¬(-0.001 ≤ cs.orbit0.eccentricity + ed * t - cs.c4 * t ∧
          cs.orbit0.eccentricity + ed * t - cs.c4 * t < 1)) ∧
    (cs.deepSpaceAfter ed idot sp lp t p22 p23 mode p28 p29 =
        .error ⟨"diverging perturbed eccentricity"⟩ ↔
      ((-0.001 ≤ cs.orbit0.eccentricity + ed * t - cs.c4 * t ∧
          cs.orbit0.eccentricity + ed * t - cs.c4 * t < 1) ∧
        ¬(0 ≤ max (cs.orbit0.eccentricity + ed * t - cs.c4 * t) 1e-6
              + ((sp.longPeriodPeriodicEffects solarEccentricity solarMeanMotion t).1
                + (lp.longPeriodPeriodicEffects lunarEccentricity lunarMeanMotion t).1) ∧
            max (cs.orbit0.eccentricity + ed * t - cs.c4 * t) 1e-6
              + ((sp.longPeriodPeriodicEffects solarEccentricity solarMeanMotion t).1
                + (lp.longPeriodPeriodicEffects lunarEccentricity lunarMeanMotion t).1)
            ≤ 1))) := by
  have hsne : ¬(("diverging perturbed eccentricity" : String) =
      "diverging eccentricity") := by decide
  have hsne2 : ¬(("diverging eccentricity" : String) =
      "diverging perturbed eccentricity") := by decide
  by_cases h1 : -0.001 ≤ cs.orbit0.eccentricity + ed * t - cs.c4 * t ∧
      cs.orbit0.eccentricity + ed * t - cs.c4 * t < 1
  · by_cases h2 : 0 ≤ max (cs.orbit0.eccentricity + ed * t - cs.c4 * t) 1e-6
        + ((sp.longPeriodPeriodicEffects solarEccentricity solarMeanMotion t).1
          + (lp.longPeriodPeriodicEffects lunarEccentricity lunarMeanMotion t).1) ∧
        max (cs.orbit0.eccentricity + ed * t - cs.c4 * t) 1e-6
          + ((sp.longPeriodPeriodicEffects solarEccentricity solarMeanMotion t).1
            + (lp.longPeriodPeriodicEffects lunarEccentricity lunarMeanMotion t).1) ≤ 1
    · simp only [Constants.deepSpaceAfter, if_neg (not_not_intro h1),
        if_neg (not_not_intro h2)]
      constructor
      · exact iff_of_false (fun h => Except.noConfusion h) (not_not_intro h1)
      · exact iff_of_false (fun h => Except.noConfusion h) (fun hc => hc.2 h2)
    · simp only [Constants.deepSpaceAfter, if_neg (not_not_intro h1), if_pos h2]
      constructor
      · refine iff_of_false ?_ (not_not_intro h1)
        intro h
        injection h with h3
        injection h3 with h4
        exact hsne h4
      · exact iff_of_true trivial ⟨h1, h2⟩
  · simp only [Constants.deepSpaceAfter, if_pos h1]
    constructor
    · exact iff_of_true trivial h1
    · refine iff_of_false ?_ (fun hc => h1 hc.1)
      intro h
      injection h with h3
      injection h3 with h4
      exact hsne2 h4

/-- The deep-space element stage reports an SGP4 error with a given message
iff its state dispatch proceeds and the post-integrator stage reports it; the
condition C is any characterization of the latter (it never depends on the
integrator output). -/
theorem dso_gp_error_iff (cs : Constants) (ed idot : ℝ) (sp lp : Perturbations)
    (resonant : Resonant) (state : Option ResonanceState) (t p22 p23 : ℝ) (mode : Bool)
    (msg : String) (C : Prop)
    (hmsg : ∀ p28 p29 : ℝ, (cs.deepSpaceAfter ed idot sp lp t p22 p23 mode p28 p29 =
      .error ⟨msg⟩) ↔ C) :
    ((cs.deepSpaceOrbitalElements ed idot sp lp resonant state t p22 p23 mode).2 =
        .error (.gp ⟨msg⟩)) ↔ (dsoProceeds resonant state t ∧ C) := by
  cases resonant with
  | no a0 =>
    cases state with
    | some s => simp [Constants.deepSpaceOrbitalElements, dsoProceeds]
    | none =>
      simp only [Constants.deepSpaceOrbitalElements, dsoProceeds, true_and,
        gpLift_error_iff, PErr.gp.injEq]
      simp only [exists_eq_left']
      exact hmsg _ _
  | yes l0 ld0 st0 resonance =>
    cases state with
    | none => simp [Constants.deepSpaceOrbitalElements, dsoProceeds]
    | some s =>
      simp only [Constants.deepSpaceOrbitalElements, dsoProceeds]
      by_cases hp : (s.t ≠ 0 ∧ ¬((0 ≤ s.t) ↔ (0 ≤ t))) ∨ |t| < |s.t|
      · simp only [ResonanceState.integrate, if_pos hp]
        simp [hp]
      · rw [integrate_ok_of_not_panic s cs.geopotential cs.orbit0.argumentOfPerigee ld0
          resonance st0 t p22 p23 hp]
        simp only [gpLift_error_iff, PErr.gp.injEq]
        simp only [exists_eq_left']
        rw [hmsg _ _]
        exact ⟨fun hC => ⟨hp, hC⟩, fun hC => hC.2⟩

/-- Claim C4: the near-earth element stage raises DivergingEccentricity iff its
pre-perturbation eccentricity p₂₅ leaves [-0.001, 1) and never raises
DivergingPerturbedEccentricity; the deep-space element stage, whenever its
state dispatch proceeds, raises DivergingEccentricity iff
p₃₁ = e₀ + ė t − C₄ t leaves [-0.001, 1), and raises
DivergingPerturbedEccentricity iff p₃₁ is in range but the eccentricity
obtained by clamping p₃₁ to at least 10⁻⁶ and adding the solar and lunar δe
leaves [0, 1]; neither error is raised in any other situation. -/
theorem diverging_eccentricity_errors_iff :
    (∀ (cs : Constants) (a0 k2 k3 k4 k5 k6 : ℝ) (full : HighAltitude) (t p21 p22 : ℝ),
      (cs.nearEarthOrbitalElements a0 k2 k3 k4 k5 k6 full t p21 p22 =
          .error ⟨"diverging eccentricity"⟩ ↔
        ¬(-0.001 ≤ (nearEarthSecular cs a0 full t p22).2.2.2.2 ∧
            (nearEarthSecular cs a0 full t p22).2.2.2.2 < 1)) ∧
      cs.nearEarthOrbitalElements a0 k2 k3 k4 k5 k6 full t p21 p22 ≠
        .error ⟨"diverging perturbed eccentricity"⟩) ∧
    (∀ (cs : Constants) (ed idot : ℝ) (sp lp : Perturbations) (resonant : Resonant)
      (state : Option ResonanceState) (t p22 p23 : ℝ) (mode : Bool),
      ((cs.deepSpaceOrbitalElements ed idot sp lp resonant state t p22 p23 mode).2 =
          .error (.gp ⟨"diverging eccentricity"⟩) ↔
        (dsoProceeds resonant state t ∧
          ¬(-0.001 ≤ cs.orbit0.eccentricity + ed * t - cs.c4 * t ∧
              cs.orbit0.eccentricity + ed * t - cs.c4 * t < 1))) ∧
      ((cs.deepSpaceOrbitalElements ed idot sp lp resonant state t p22 p23 mode).2 =
          .error (.gp ⟨"diverging perturbed eccentricity"⟩) ↔
        (dsoProceeds resonant state t ∧
          ((-0.001 ≤ cs.orbit0.eccentricity + ed * t - cs.c4 * t ∧
              cs.orbit0.eccentricity + ed * t - cs.c4 * t < 1) ∧
            ¬(0 ≤ max (cs.orbit0.eccentricity + ed * t - cs.c4 * t) 1e-6
                  + ((sp.longPeriodPeriodicEffects solarEccentricity solarMeanMotion
                    t).1
                    + (lp.longPeriodPeriodicEffects lunarEccentricity lunarMeanMotion
                      t).1) ∧
                max (cs.orbit0.eccentricity + ed * t - cs.c4 * t) 1e-6
                  + ((sp.longPeriodPeriodicEffects solarEccentricity solarMeanMotion
                    t).1
                    + (lp.longPeriodPeriodicEffects lunarEccentricity lunarMeanMotion
                      t).1) ≤ 1))))) := by
  have hsne2 : ¬(("diverging eccentricity" : String) =
      "diverging perturbed eccentricity") := by decide
  constructor
  · intro cs a0 k2 k3 k4 k5 k6 full t p21 p22
    by_cases hc : (nearEarthSecular cs a0 full t p22).2.2.2.2 ≥ 1 ∨
        (nearEarthSecular cs a0 full t p22).2.2.2.2 < -0.001
    · have hout : ¬(-0.001 ≤ (nearEarthSecular cs a0 full t p22).2.2.2.2 ∧
          (nearEarthSecular cs a0 full t p22).2.2.2.2 < 1) := by
        rcases hc with hc | hc
        · intro hr
          linarith [hr.2]
        · intro hr
          linarith [hr.1]
      simp only [Constants.nearEarthOrbitalElements, if_pos hc]
      constructor
      · exact iff_of_true trivial hout
      · intro h
        injection h with h3
        injection h3 with h4
        exact hsne2 h4
    · have hnc := hc
      push_neg at hc
      have hin : -0.001 ≤ (nearEarthSecular cs a0 full t p22).2.2.2.2 ∧
          (nearEarthSecular cs a0 full t p22).2.2.2.2 < 1 := ⟨hc.2, hc.1⟩
      simp only [Constants.nearEarthOrbitalElements, if_neg hnc]
      constructor
      · exact iff_of_false (fun h => Except.noConfusion h) (not_not_intro hin)
      · intro h
        exact Except.noConfusion h
  · intro cs ed idot sp lp resonant state t p22 p23 mode
    exact ⟨dso_gp_error_iff cs ed idot sp lp resonant state t p22 p23 mode
        "diverging eccentricity" _
        (fun p28 p29 => (deepSpaceAfter_error_iff cs ed idot sp lp t p22 p23 mode p28
          p29).1),
      dso_gp_error_iff cs ed idot sp lp resonant state t p22 p23 mode
        "diverging perturbed eccentricity" _
        (fun p28 p29 => (deepSpaceAfter_error_iff cs ed idot sp lp t p22 p23 mode p28
          p29).2)⟩

/-- Witness for C4: a concrete near-earth propagation whose pre-perturbation
eccentricity stays in range does not report DivergingEccentricity. -/
theorem diverging_eccentricity_errors_iff_witness :
    csNE.nearEarthOrbitalElements 1 0 0 0 0 0 HighAltitude.no 0 0 0 ≠
      .error ⟨"diverging eccentricity"⟩ := by
  intro h
  apply (diverging_eccentricity_errors_iff.1 csNE 1 0 0 0 0 0 HighAltitude.no 0 0
    0).1.mp h
  constructor <;> norm_num [nearEarthSecular, csNE, orbTrivial]

/-- The epoch-initialization output cited by claim C8: Constants::new at B* = 2
on a circular-free orbit (e₀ = 1/2, n₀" = 1 rad/min, vanishing harmonics). -/
def cs8 : Constants := Constants.newBody gTrivial (fun x => x) 0 2 ⟨0, 0, 1/2, 0, 0, 1⟩

/-- Claim C8 (evaluation of the code at the failing input): with B* = 2 and
t = 1, the near-earth element stage computes the pre-perturbation eccentricity
as e₀ − B*·C₄·t, where the C₄ stored by Constants::new already contains the B*
factor; the result therefore differs from the claimed e₀ − C₄·t. -/
theorem nearEarth_drag_term_applied_twice :
    ((nearEarthSecular cs8 1 HighAltitude.no 1 0).2.2.2.2 =
      cs8.orbit0.eccentricity - cs8.dragTerm * cs8.c4 * 1) ∧
    cs8.dragTerm = 2 ∧ 0 < cs8.c4 ∧
    (nearEarthSecular cs8 1 HighAltitude.no 1 0).2.2.2.2 ≠
      cs8.orbit0.eccentricity - cs8.c4 * 1 := by
  have hgt : (⟨0, 0, 1/2, 0, 0, 1⟩ : Orbit).meanMotion > 2 * Real.pi / 225 := by
    show (2 : ℝ) * Real.pi / 225 < 1
    rw [div_lt_one (by norm_num : (0 : ℝ) < 225)]
    linarith [Real.pi_lt_d2]
  have hdrag : cs8.dragTerm = 2 := by
    rw [cs8, Constants.newBody]
    rw [if_pos hgt]
    rfl
  have hc4 : 0 < cs8.c4 := by
    rw [cs8, Constants.newBody]
    rw [if_pos hgt]
    simp only [nearEarthConstants]
    norm_num [gTrivial, Real.one_rpow]
    positivity
  refine ⟨by simp [nearEarthSecular], hdrag, hc4, ?_⟩
  simp only [nearEarthSecular]
  rw [hdrag]
  intro heq
  have h2 : 2 * cs8.c4 * 1 = cs8.c4 * 1 := by linarith
  linarith

/-- An all-zero third-body coefficient pack, used as a concrete evaluation
point. -/
def pertZero : Perturbations := ⟨0, 0, 0, 0, 0, 0, 0, 0, 0, 0, 0, 0, 0⟩

/-- A concrete non-resonant deep-space bundle with epoch eccentricity 5. -/
def cs9a : Constants :=
  ⟨gTrivial, 0, 0, 0, 0, 0, 0, 0, 0,
    Method.deepSpace 0 0 pertZero pertZero (Resonant.no 1), ⟨0, 0, 5, 0, 0, 1⟩⟩

/-- A concrete non-resonant deep-space bundle with epoch eccentricity 7. -/
def cs9b : Constants :=
  ⟨gTrivial, 0, 0, 0, 0, 0, 0, 0, 0,
    Method.deepSpace 0 0 pertZero pertZero (Resonant.no 1), ⟨0, 0, 7, 0, 0, 1⟩⟩

/-- Claim C9 (evaluation of the code at the failing input): two deep-space
propagations that diverge at different offending eccentricities (5 and 7) and
different times since epoch (0 and 3) report identical error values, so the
reported error carries neither the offending eccentricity nor the time; the
Error record holds only a description string. -/
theorem propagation_errors_carry_no_payload :
    ((cs9a.deepSpaceOrbitalElements 0 0 pertZero pertZero (Resonant.no 1) none 0 0 0
        false).2 =
      (cs9b.deepSpaceOrbitalElements 0 0 pertZero pertZero (Resonant.no 1) none 3 0 0
        false).2) ∧
    cs9a.orbit0.eccentricity ≠ cs9b.orbit0.eccentricity := by
  have hda := (deepSpaceAfter_error_iff cs9a 0 0 pertZero pertZero 0 0 0 false 1
    (cs9a.orbit0.meanAnomaly + cs9a.meanAnomalyDot * 0)).1.mpr (by norm_num [cs9a])
  have hdb := (deepSpaceAfter_error_iff cs9b 0 0 pertZero pertZero 3 0 0 false 1
    (cs9b.orbit0.meanAnomaly + cs9b.meanAnomalyDot * 3)).1.mpr (by norm_num [cs9b])
  constructor
  · simp only [Constants.deepSpaceOrbitalElements, hda, hdb, gpLift]
  · norm_num [cs9a, cs9b]

/-- The integrator step advances the state time by the signed step. -/
theorem integrateStep_t (aop0 ld0 : ℝ) (res : Resonance) (dT : ℝ)
    (s : ResonanceState) : (integrateStep aop0 ld0 res dT s).t = s.t + dT := rfl

/-- Unfolding of the upward integrator loop at a stopping state. -/
theorem integrateUp_stop (g : Geopotential) (aop0 ld0 : ℝ) (res : Resonance)
    (t θ p22 p23 : ℝ) (s : ResonanceState) (h : t - deltaTconst < s.t) :
    integrateUp g aop0 ld0 res t θ p22 p23 s =
      (integrateFinish g aop0 ld0 res t θ p22 p23 s, s) := by
  rw [integrateUp]
  rw [if_pos h]

/-- Unfolding of the upward integrator loop at a stepping state. -/
theorem integrateUp_go (g : Geopotential) (aop0 ld0 : ℝ) (res : Resonance)
    (t θ p22 p23 : ℝ) (s : ResonanceState) (h : ¬(t - deltaTconst < s.t)) :
    integrateUp g aop0 ld0 res t θ p22 p23 s =
      integrateUp g aop0 ld0 res t θ p22 p23
        (integrateStep aop0 ld0 res deltaTconst s) := by
  conv_lhs => rw [integrateUp]
  rw [if_neg h]

/-- Unfolding of the downward integrator loop at a stopping state. -/
theorem integrateDown_stop (g : Geopotential) (aop0 ld0 : ℝ) (res : Resonance)
    (t θ p22 p23 : ℝ) (s : ResonanceState) (h : t + deltaTconst > s.t) :
    integrateDown g aop0 ld0 res t θ p22 p23 s =
      (integrateFinish g aop0 ld0 res t θ p22 p23 s, s) := by
  rw [integrateDown]
  rw [if_pos h]

/-- Unfolding of the downward integrator loop at a stepping state. -/
theorem integrateDown_go (g : Geopotential) (aop0 ld0 : ℝ) (res : Resonance)
    (t θ p22 p23 : ℝ) (s : ResonanceState) (h : ¬(t + deltaTconst > s.t)) :
    integrateDown g aop0 ld0 res t θ p22 p23 s =
      integrateDown g aop0 ld0 res t θ p22 p23
        (integrateStep aop0 ld0 res (-deltaTconst) s) := by
  conv_lhs => rw [integrateDown]
  rw [if_neg h]

/-- Re-running the upward loop to a later target from the final state of an
earlier run gives the same outcome as a single run from the initial state. -/
theorem integrateUp_reuse (g : Geopotential) (aop0 ld0 : ℝ) (res : Resonance)
    (θa p22a p23a θb p22b p23b t₁ t₂ : ℝ) (h12 : t₁ ≤ t₂) :
    ∀ s : ResonanceState,
      integrateUp g aop0 ld0 res t₂ θb p22b p23b
        ((integrateUp g aop0 ld0 res t₁ θa p22a p23a s).2) =
      integrateUp g aop0 ld0 res t₂ θb p22b p23b s := by
  suffices H : ∀ (n : ℕ) (s : ResonanceState), (⌈(t₁ - s.t) / 720⌉).toNat ≤ n →
      integrateUp g aop0 ld0 res t₂ θb p22b p23b
        ((integrateUp g aop0 ld0 res t₁ θa p22a p23a s).2) =
      integrateUp g aop0 ld0 res t₂ θb p22b p23b s by
    intro s
    exact H _ s le_rfl
  intro n
  induction n with
  | zero =>
    intro s hm
    have h1 : ⌈(t₁ - s.t) / 720⌉ ≤ 0 := by omega
    have h2 : (t₁ - s.t) / 720 ≤ ((0 : ℤ) : ℝ) := Int.ceil_le.mp h1
    rw [div_le_iff₀ (by norm_num : (0 : ℝ) < 720)] at h2
    have hstop : t₁ - deltaTconst < s.t := by
      simp only [deltaTconst]
      push_cast at h2
      linarith
    rw [integrateUp_stop _ _ _ _ _ _ _ _ _ hstop]
  | succ n ih =>
    intro s hm
    by_cases hstop : t₁ - deltaTconst < s.t
    · rw [integrateUp_stop _ _ _ _ _ _ _ _ _ hstop]
    · have hle : s.t ≤ t₁ - 720 := by
        have := not_lt.mp hstop
        simp only [deltaTconst] at this
        linarith
      have hstop2 : ¬(t₂ - deltaTconst < s.t) := by
        simp only [deltaTconst]
        push_neg
        linarith
      rw [integrateUp_go _ _ _ _ _ _ _ _ _ hstop]
      rw [integrateUp_go _ _ _ _ _ _ _ _ _ hstop2]
      apply ih
      rw [integrateStep_t]
      have hpos : (0 : ℤ) < ⌈(t₁ - s.t) / 720⌉ := by
        apply Int.ceil_pos.mpr
        apply div_pos _ (by norm_num)
        linarith
      have heq : (t₁ - (s.t + deltaTconst)) / 720 = (t₁ - s.t) / 720 - 1 := by
        simp only [deltaTconst]
        ring
      rw [heq, Int.ceil_sub_one]
      omega

/-- Re-running the downward loop to an earlier target from the final state of
a previous run gives the same outcome as a single run from the initial
state. -/
theorem integrateDown_reuse (g : Geopotential) (aop0 ld0 : ℝ) (res : Resonance)
    (θa p22a p23a θb p22b p23b t₁ t₂ : ℝ) (h12 : t₂ ≤ t₁) :
    ∀ s : ResonanceState,
      integrateDown g aop0 ld0 res t₂ θb p22b p23b
        ((integrateDown g aop0 ld0 res t₁ θa p22a p23a s).2) =
      integrateDown g aop0 ld0 res t₂ θb p22b p23b s := by
  suffices H : ∀ (n : ℕ) (s : ResonanceState), (⌈(s.t - t₁) / 720⌉).toNat ≤ n →
      integrateDown g aop0 ld0 res t₂ θb p22b p23b
        ((integrateDown g aop0 ld0 res t₁ θa p22a p23a s).2) =
      integrateDown g aop0 ld0 res t₂ θb p22b p23b s by
    intro s
    exact H _ s le_rfl
  intro n
  induction n with
  | zero =>
    intro s hm
    have h1 : ⌈(s.t - t₁) / 720⌉ ≤ 0 := by omega
    have h2 : (s.t - t₁) / 720 ≤ ((0 : ℤ) : ℝ) := Int.ceil_le.mp h1
    rw [div_le_iff₀ (by norm_num : (0 : ℝ) < 720)] at h2
    have hstop : t₁ + deltaTconst > s.t := by
      simp only [deltaTconst]
      push_cast at h2
      linarith
    rw [integrateDown_stop _ _ _ _ _ _ _ _ _ hstop]
  | succ n ih =>
    intro s hm
    by_cases hstop : t₁ + deltaTconst > s.t
    · rw [integrateDown_stop _ _ _ _ _ _ _ _ _ hstop]
    · have hle : t₁ + 720 ≤ s.t := by
        have := not_lt.mp hstop
        simp only [deltaTconst] at this
        linarith
      have hstop2 : ¬(t₂ + deltaTconst > s.t) := by
        simp only [deltaTconst]
        push_neg
        linarith
      rw [integrateDown_go _ _ _ _ _ _ _ _ _ hstop]
      rw [integrateDown_go _ _ _ _ _ _ _ _ _ hstop2]
      apply ih
      rw [integrateStep_t]
      have hpos : (0 : ℤ) < ⌈(s.t - t₁) / 720⌉ := by
        apply Int.ceil_pos.mpr
        apply div_pos _ (by norm_num)
        linarith
      have heq : (s.t + -deltaTconst - t₁) / 720 = (s.t - t₁) / 720 - 1 := by
        simp only [deltaTconst]
        ring
      rw [heq, Int.ceil_sub_one]
      omega

/-- The final state time of the upward loop lies between the initial state
time and the larger of it and the target time. -/
theorem integrateUp_t_bounds (g : Geopotential) (aop0 ld0 : ℝ) (res : Resonance)
    (t θ p22 p23 : ℝ) :
    ∀ s : ResonanceState,
      s.t ≤ ((integrateUp g aop0 ld0 res t θ p22 p23 s).2).t ∧
      ((integrateUp g aop0 ld0 res t θ p22 p23 s).2).t ≤ max s.t t := by
  suffices H : ∀ (n : ℕ) (s : ResonanceState), (⌈(t - s.t) / 720⌉).toNat ≤ n →
      s.t ≤ ((integrateUp g aop0 ld0 res t θ p22 p23 s).2).t ∧
      ((integrateUp g aop0 ld0 res t θ p22 p23 s).2).t ≤ max s.t t by
    intro s
    exact H _ s le_rfl
  intro n
  induction n with
  | zero =>
    intro s hm
    have h1 : ⌈(t - s.t) / 720⌉ ≤ 0 := by omega
    have h2 : (t - s.t) / 720 ≤ ((0 : ℤ) : ℝ) := Int.ceil_le.mp h1
    rw [div_le_iff₀ (by norm_num : (0 : ℝ) < 720)] at h2
    have hstop : t - deltaTconst < s.t := by
      simp only [deltaTconst]
      push_cast at h2
      linarith
    rw [integrateUp_stop _ _ _ _ _ _ _ _ _ hstop]
    exact ⟨le_rfl, le_max_left _ _⟩
  | succ n ih =>
    intro s hm
    by_cases hstop : t - deltaTconst < s.t
    · rw [integrateUp_stop _ _ _ _ _ _ _ _ _ hstop]
      exact ⟨le_rfl, le_max_left _ _⟩
    · have hle : s.t ≤ t - 720 := by
        have := not_lt.mp hstop
        simp only [deltaTconst] at this
        linarith
      rw [integrateUp_go _ _ _ _ _ _ _ _ _ hstop]
      have hmeas : (⌈(t - (integrateStep aop0 ld0 res deltaTconst s).t) / 720⌉).toNat
          ≤ n := by
        rw [integrateStep_t]
        have hpos : (0 : ℤ) < ⌈(t - s.t) / 720⌉ := by
          apply Int.ceil_pos.mpr
          apply div_pos _ (by norm_num)
          linarith
        have heq : (t - (s.t + deltaTconst)) / 720 = (t - s.t) / 720 - 1 := by
          simp only [deltaTconst]
          ring
        rw [heq, Int.ceil_sub_one]
        omega
      have hb := ih (integrateStep aop0 ld0 res deltaTconst s) hmeas
      rw [integrateStep_t] at hb
      constructor
      · have : s.t ≤ s.t + deltaTconst := by
          simp only [deltaTconst]
          linarith
        exact le_trans this hb.1
      · refine le_trans hb.2 ?_
        have hmax : max (s.t + deltaTconst) t = t := by
          apply max_eq_right
          simp only [deltaTconst]
          linarith
        rw [hmax]
        exact le_max_right _ _

/-- The final state time of the downward loop lies between the smaller of the
initial state time and the target time, and the initial state time. -/
theorem integrateDown_t_bounds (g : Geopotential) (aop0 ld0 : ℝ) (res : Resonance)
    (t θ p22 p23 : ℝ) :
    ∀ s : ResonanceState,
      min s.t t ≤ ((integrateDown g aop0 ld0 res t θ p22 p23 s).2).t ∧
      ((integrateDown g aop0 ld0 res t θ p22 p23 s).2).t ≤ s.t := by
  suffices H : ∀ (n : ℕ) (s : ResonanceState), (⌈(s.t - t) / 720⌉).toNat ≤ n →
      min s.t t ≤ ((integrateDown g aop0 ld0 res t θ p22 p23 s).2).t ∧
      ((integrateDown g aop0 ld0 res t θ p22 p23 s).2).t ≤ s.t by
    intro s
    exact H _ s le_rfl
  intro n
  induction n with
  | zero =>
    intro s hm
    have h1 : ⌈(s.t - t) / 720⌉ ≤ 0 := by omega
    have h2 : (s.t - t) / 720 ≤ ((0 : ℤ) : ℝ) := Int.ceil_le.mp h1
    rw [div_le_iff₀ (by norm_num : (0 : ℝ) < 720)] at h2
    have hstop : t + deltaTconst > s.t := by
      simp only [deltaTconst]
      push_cast at h2
      linarith
    rw [integrateDown_stop _ _ _ _ _ _ _ _ _ hstop]
    exact ⟨min_le_left _ _, le_rfl⟩
  | succ n ih =>
    intro s hm
    by_cases hstop : t + deltaTconst > s.t
    · rw [integrateDown_stop _ _ _ _ _ _ _ _ _ hstop]
      exact ⟨min_le_left _ _, le_rfl⟩
    · have hle : t + 720 ≤ s.t := by
        have := not_lt.mp hstop
        simp only [deltaTconst] at this
        linarith
      rw [integrateDown_go _ _ _ _ _ _ _ _ _ hstop]
      have hmeas : (⌈((integrateStep aop0 ld0 res (-deltaTconst) s).t - t) / 720⌉).toNat
          ≤ n := by
        rw [integrateStep_t]
        have hpos : (0 : ℤ) < ⌈(s.t - t) / 720⌉ := by
          apply Int.ceil_pos.mpr
          apply div_pos _ (by norm_num)
          linarith
        have heq : (s.t + -deltaTconst - t) / 720 = (s.t - t) / 720 - 1 := by
          simp only [deltaTconst]
          ring
        rw [heq, Int.ceil_sub_one]
        omega
      have hb := ih (integrateStep aop0 ld0 res (-deltaTconst) s) hmeas
      rw [integrateStep_t] at hb
      constructor
      · refine le_trans ?_ hb.1
        have hmin : min (s.t + -deltaTconst) t = min s.t t ⊓ t ∨ True := Or.inr trivial
        have h1 : min s.t t ≤ s.t + -deltaTconst := by
          simp only [deltaTconst]
          exact le_trans (min_le_right _ _) (by linarith)
        exact le_trans (le_min h1 (min_le_right _ _)) (le_refl _)
      · have : s.t + -deltaTconst ≤ s.t := by
          simp only [deltaTconst]
          linarith
        exact le_trans hb.2 this

/-- Re-running the integrator to a later (same-signed) target from the final
state of an earlier run from a fresh state gives the same outcome as a single
run from the fresh state. -/
theorem integrateRun_reuse (g : Geopotential) (aop0 ld0 : ℝ) (res : Resonance)
    (θ0 t₁ t₂ p22a p23a p22b p23b : ℝ) (s₀ : ResonanceState) (hs0 : s₀.t = 0)
    (hsign : (0 ≤ t₁ ∧ t₁ ≤ t₂) ∨ (t₂ ≤ t₁ ∧ t₁ ≤ 0)) :
    integrateRun g aop0 ld0 res θ0 t₂ p22b p23b
      ((integrateRun g aop0 ld0 res θ0 t₁ p22a p23a s₀).2) =
    integrateRun g aop0 ld0 res θ0 t₂ p22b p23b s₀ := by
  rcases hsign with ⟨h0, h12⟩ | ⟨h12, h0⟩
  · by_cases ht1 : t₁ > 0
    · have ht2 : t₂ > 0 := lt_of_lt_of_le ht1 h12
      simp only [integrateRun, if_pos ht1, if_pos ht2]
      exact integrateUp_reuse g aop0 ld0 res _ p22a p23a _ p22b p23b t₁ t₂ h12 s₀
    · have hstop : t₁ + deltaTconst > s₀.t := by
        rw [hs0]
        simp only [deltaTconst]
        linarith [le_antisymm (not_lt.mp ht1) h0]
      simp only [integrateRun, if_neg ht1]
      rw [integrateDown_stop _ _ _ _ _ _ _ _ _ hstop]
  · have ht1 : ¬(t₁ > 0) := not_lt.mpr h0
    have ht2 : ¬(t₂ > 0) := not_lt.mpr (le_trans h12 h0)
    simp only [integrateRun, if_neg ht1, if_neg ht2]
    exact integrateDown_reuse g aop0 ld0 res _ p22a p23a _ p22b p23b t₁ t₂ h12 s₀

/-- The final state time of an integrator run from a fresh state lies between
zero and the target time. -/
theorem integrateRun_t_bounds (g : Geopotential) (aop0 ld0 : ℝ) (res : Resonance)
    (θ0 t₁ p22a p23a : ℝ) (s₀ : ResonanceState) (hs0 : s₀.t = 0) :
    (0 ≤ t₁ → 0 ≤ ((integrateRun g aop0 ld0 res θ0 t₁ p22a p23a s₀).2).t ∧
      ((integrateRun g aop0 ld0 res θ0 t₁ p22a p23a s₀).2).t ≤ t₁) ∧
    (t₁ ≤ 0 → t₁ ≤ ((integrateRun g aop0 ld0 res θ0 t₁ p22a p23a s₀).2).t ∧
      ((integrateRun g aop0 ld0 res θ0 t₁ p22a p23a s₀).2).t ≤ 0) := by
  constructor
  · intro h0
    by_cases ht1 : t₁ > 0
    · simp only [integrateRun, if_pos ht1]
      have hb := integrateUp_t_bounds g aop0 ld0 res t₁
        (frem (θ0 + t₁ * 4.37526908801129966e-3) (2 * Real.pi)) p22a p23a s₀
      rw [hs0] at hb
      refine ⟨hb.1, le_trans hb.2 ?_⟩
      rw [max_eq_right h0]
    · simp only [integrateRun, if_neg ht1]
      have hb := integrateDown_t_bounds g aop0 ld0 res t₁
        (frem (θ0 + t₁ * 4.37526908801129966e-3) (2 * Real.pi)) p22a p23a s₀
      rw [hs0] at hb
      have ht10 : t₁ = 0 := le_antisymm (not_lt.mp ht1) h0
      subst ht10
      simpa using hb
  · intro h0
    have ht1 : ¬(t₁ > 0) := not_lt.mpr h0
    simp only [integrateRun, if_neg ht1]
    have hb := integrateDown_t_bounds g aop0 ld0 res t₁
      (frem (θ0 + t₁ * 4.37526908801129966e-3) (2 * Real.pi)) p22a p23a s₀
    rw [hs0] at hb
    rw [min_eq_right h0] at hb
    exact hb

/-- After a fresh run to a same-signed earlier target, the integrator's
monotonicity check passes for every later target of the same sign. -/
theorem integrateRun_precheck (g : Geopotential) (aop0 ld0 : ℝ) (res : Resonance)
    (θ0 t₁ t₂ p22a p23a : ℝ) (s₀ : ResonanceState) (hs0 : s₀.t = 0)
    (hsign : (0 ≤ t₁ ∧ t₁ ≤ t₂) ∨ (t₂ ≤ t₁ ∧ t₁ ≤ 0)) :
    ¬((((integrateRun g aop0 ld0 res θ0 t₁ p22a p23a s₀).2).t ≠ 0 ∧
        ¬((0 ≤ ((integrateRun g aop0 ld0 res θ0 t₁ p22a p23a s₀).2).t) ↔ (0 ≤ t₂))) ∨
      |t₂| < |((integrateRun g aop0 ld0 res θ0 t₁ p22a p23a s₀).2).t|) := by
  have hb := integrateRun_t_bounds g aop0 ld0 res θ0 t₁ p22a p23a s₀ hs0
  rcases hsign with ⟨h0, h12⟩ | ⟨h12, h0⟩
  · obtain ⟨hb1, hb2⟩ := hb.1 h0
    push_neg
    constructor
    · intro _
      exact iff_of_true hb1 (by linarith)
    · rw [abs_of_nonneg hb1, abs_of_nonneg (by linarith : (0 : ℝ) ≤ t₂)]
      linarith
  · obtain ⟨hb1, hb2⟩ := hb.2 h0
    push_neg
    constructor
    · intro hne
      have hlt : ((integrateRun g aop0 ld0 res θ0 t₁ p22a p23a s₀).2).t < 0 :=
        lt_of_le_of_ne hb2 hne
      have ht2 : t₂ < 0 := lt_of_le_of_lt (le_trans h12 hb1) hlt
      exact iff_of_false (by linarith) (by linarith)
    · rw [abs_of_nonpos hb2, abs_of_nonpos (by linarith : t₂ ≤ 0)]
      linarith

/-- The three integrator calls in the two-call reuse scenario all succeed and
agree: fresh to t₁, reuse to t₂, and fresh to t₂. -/
theorem integrate_reuse_ok (g : Geopotential) (aop0 ld0 : ℝ) (res : Resonance)
    (θ0 t₁ t₂ p22a p23a p22b p23b : ℝ) (s₀ : ResonanceState) (hs0 : s₀.t = 0)
    (hsign : (0 ≤ t₁ ∧ t₁ ≤ t₂) ∨ (t₂ ≤ t₁ ∧ t₁ ≤ 0)) :
    s₀.integrate g aop0 ld0 res θ0 t₁ p22a p23a =
      .ok (integrateRun g aop0 ld0 res θ0 t₁ p22a p23a s₀) ∧
    ((integrateRun g aop0 ld0 res θ0 t₁ p22a p23a s₀).2).integrate g aop0 ld0 res θ0 t₂
        p22b p23b =
      .ok (integrateRun g aop0 ld0 res θ0 t₂ p22b p23b s₀) ∧
    s₀.integrate g aop0 ld0 res θ0 t₂ p22b p23b =
      .ok (integrateRun g aop0 ld0 res θ0 t₂ p22b p23b s₀) := by
  have hp0 : ∀ u : ℝ, ¬((s₀.t ≠ 0 ∧ ¬((0 ≤ s₀.t) ↔ (0 ≤ u))) ∨ |u| < |s₀.t|) := by
    intro u
    rw [hs0]
    norm_num
  refine ⟨integrate_ok_of_not_panic _ _ _ _ _ _ _ _ _ (hp0 t₁), ?_,
    integrate_ok_of_not_panic _ _ _ _ _ _ _ _ _ (hp0 t₂)⟩
  rw [integrate_ok_of_not_panic _ _ _ _ _ _ _ _ _
    (integrateRun_precheck g aop0 ld0 res θ0 t₁ t₂ p22a p23a s₀ hs0 hsign)]
  rw [integrateRun_reuse g aop0 ld0 res θ0 t₁ t₂ p22a p23a p22b p23b s₀ hs0 hsign]

/-- Reusing the state left by a same-signed earlier propagation gives exactly
the same propagation output (state and prediction) as a fresh initial state. -/
theorem propagateFromState_reuse (cs : Constants) (mode : Bool) (t₁ t₂ : ℝ)
    (hsign : (0 ≤ t₁ ∧ t₁ ≤ t₂) ∨ (t₂ ≤ t₁ ∧ t₁ ≤ 0)) :
    cs.propagateFromState t₂ ((cs.propagateFromState t₁ cs.initialState mode).1) mode =
      cs.propagateFromState t₂ cs.initialState mode := by
  cases hm : cs.method with
  | nearEarth a0 k2 k3 k4 k5 k6 highAltitude =>
    have hio : cs.initialState = none := by
      simp [Constants.initialState, hm]
    have h1 : (cs.propagateFromState t₁ cs.initialState mode).1 = none := by
      simp only [Constants.propagateFromState, hm, hio]
    rw [h1, hio]
  | deepSpace ed idot sp lp res =>
    cases res with
    | no a0 =>
      have hio : cs.initialState = none := by
        simp [Constants.initialState, hm]
      have h1 : (cs.propagateFromState t₁ cs.initialState mode).1 = none := by
        simp only [Constants.propagateFromState, hm, hio,
          Constants.deepSpaceOrbitalElements]
      rw [h1, hio]
    | yes l0 ld0 st0 resonance =>
      have hio : cs.initialState =
          some (ResonanceState.new cs.orbit0.meanMotion l0) := by
        simp [Constants.initialState, hm]
      obtain ⟨hi1, hi2, hi3⟩ := integrate_reuse_ok cs.geopotential
        cs.orbit0.argumentOfPerigee ld0 resonance st0 t₁ t₂
        (cs.orbit0.rightAscension + cs.rightAscensionDot * t₁ + cs.k0 * t₁ ^ 2)
        (cs.orbit0.argumentOfPerigee + cs.argumentOfPerigeeDot * t₁)
        (cs.orbit0.rightAscension + cs.rightAscensionDot * t₂ + cs.k0 * t₂ ^ 2)
        (cs.orbit0.argumentOfPerigee + cs.argumentOfPerigeeDot * t₂)
        (ResonanceState.new cs.orbit0.meanMotion l0) rfl hsign
      have h1 : (cs.propagateFromState t₁ cs.initialState mode).1 =
          some ((integrateRun cs.geopotential cs.orbit0.argumentOfPerigee ld0 resonance
            st0 t₁
            (cs.orbit0.rightAscension + cs.rightAscensionDot * t₁ + cs.k0 * t₁ ^ 2)
            (cs.orbit0.argumentOfPerigee + cs.argumentOfPerigeeDot * t₁)
            (ResonanceState.new cs.orbit0.meanMotion l0)).2) := by
        simp only [Constants.propagateFromState, hm, hio,
          Constants.deepSpaceOrbitalElements, hi1]
      rw [h1, hio]
      simp only [Constants.propagateFromState, hm,
        Constants.deepSpaceOrbitalElements, hi2, hi3]

/-- Sequential propagation with one threaded state: each call consumes the
state left by the previous one. -/
def runSeq (cs : Constants) (mode : Bool) :
    Option ResonanceState → List ℝ → List (Except PErr Prediction)
  | _, [] => []
  | st, t :: ts =>
    ((cs.propagateFromState t st mode).2) ::
      runSeq cs mode ((cs.propagateFromState t st mode).1) ts

/-- Sequential propagation from the state left by a fresh call at tp equals
fresh propagation at each time, for nonnegative increasing times. -/
theorem runSeq_fresh_pos (cs : Constants) (mode : Bool) :
    ∀ (ts : List ℝ) (tp : ℝ), 0 ≤ tp → List.Chain (· ≤ ·) tp ts →
      runSeq cs mode ((cs.propagateFromState tp cs.initialState mode).1) ts =
        ts.map (fun t => (cs.propagateFromState t cs.initialState mode).2) := by
  intro ts
  induction ts with
  | nil =>
    intro tp _ _
    rfl
  | cons t ts ih =>
    intro tp htp hch
    cases hch with
    | cons hpt hch2 =>
      simp only [runSeq, List.map]
      rw [propagateFromState_reuse cs mode tp t (Or.inl ⟨htp, hpt⟩)]
      rw [ih t (le_trans htp hpt) hch2]

/-- Sequential propagation from the state left by a fresh call at tp equals
fresh propagation at each time, for nonpositive decreasing times. -/
theorem runSeq_fresh_neg (cs : Constants) (mode : Bool) :
    ∀ (ts : List ℝ) (tp : ℝ), tp ≤ 0 → List.Chain (fun a b => b ≤ a) tp ts →
      runSeq cs mode ((cs.propagateFromState tp cs.initialState mode).1) ts =
        ts.map (fun t => (cs.propagateFromState t cs.initialState mode).2) := by
  intro ts
  induction ts with
  | nil =>
    intro tp _ _
    rfl
  | cons t ts ih =>
    intro tp htp hch
    cases hch with
    | cons hpt hch2 =>
      simp only [runSeq, List.map]
      rw [propagateFromState_reuse cs mode tp t (Or.inr ⟨hpt, htp⟩)]
      rw [ih t (le_trans hpt htp) hch2]

/-- Claim C7: for every constants bundle (in particular every deep-space
resonant one) and every monotone same-signed sequence of propagation times,
propagating sequentially with the single state obtained from initial_state()
yields at each time exactly the same output as propagating that time alone
with a fresh initial_state(). -/
theorem sequential_propagation_matches_fresh (cs : Constants) (mode : Bool)
    (ts : List ℝ)
    (hmono : (List.Chain' (· ≤ ·) ts ∧ ∀ x ∈ ts, 0 ≤ x) ∨
      (List.Chain' (fun a b => b ≤ a) ts ∧ ∀ x ∈ ts, x ≤ 0)) :
    runSeq cs mode cs.initialState ts =
      ts.map (fun t => (cs.propagateFromState t cs.initialState mode).2) := by
  cases ts with
  | nil => rfl
  | cons t ts =>
    simp only [runSeq, List.map]
    rcases hmono with ⟨hch, hsg⟩ | ⟨hch, hsg⟩
    · rw [runSeq_fresh_pos cs mode ts t (hsg t (List.mem_cons_self t ts)) hch]
    · rw [runSeq_fresh_neg cs mode ts t (hsg t (List.mem_cons_self t ts)) hch]

/-- Witness for C7: the two-step schedule 0 min then 720 min on a concrete
bundle. -/
theorem sequential_propagation_matches_fresh_witness :
    runSeq csNE false csNE.initialState [0, 720] =
      [(0 : ℝ), 720].map
        (fun t => (csNE.propagateFromState t csNE.initialState false).2) := by
  apply sequential_propagation_matches_fresh
  left
  constructor
  · simp only [List.chain'_cons, List.chain'_singleton, and_true]
    norm_num
  · intro x hx
    rcases List.mem_cons.mp hx with h | h
    · rw [h]
    · rw [List.mem_singleton.mp h]
      norm_num

end SGP4
